import Mathlib

/-!
Shallow embedding of `src/libs/hwui/GlopBuilder.cpp` (Android hwui draw-descriptor
builder) and proofs of the specified properties.

Machine floats are modelled as rationals (`ℚ`); 32-bit ARGB colors as `Nat` with
bit extraction; GL enums as `Nat` constants; fatal conditions (`LOG_ALWAYS_FATAL`)
as an `Except Fatal` result.  Types that live in headers not present under the
repository sources (Matrix.h, Blend.h, PaintUtils.h, SkiaShader.h, GlopBuilder.h
stage constants) are modelled from the spec and marked as such in doc comments.
-/

namespace GlopSpec

/-! ## GL enum constants (values from GLES2/gl2.h) -/

def GL_ZERO : Nat := 0
def GL_ONE : Nat := 1
def GL_SRC_COLOR : Nat := 0x0300
def GL_ONE_MINUS_SRC_COLOR : Nat := 0x0301
def GL_SRC_ALPHA : Nat := 0x0302
def GL_ONE_MINUS_SRC_ALPHA : Nat := 0x0303
def GL_DST_ALPHA : Nat := 0x0304
def GL_ONE_MINUS_DST_ALPHA : Nat := 0x0305
def GL_TRIANGLES : Nat := 0x0004
def GL_TRIANGLE_STRIP : Nat := 0x0005
def GL_INVALID_ENUM : Nat := 0x0500
def GL_TEXTURE_2D : Nat := 0x0DE1
def GL_TEXTURE_EXTERNAL_OES : Nat := 0x8D65
def GL_NEAREST : Nat := 0x2600
def GL_LINEAR : Nat := 0x2601
def GL_CLAMP_TO_EDGE : Nat := 0x812F

/-! ## Skia color and transfer-mode model -/

/-- SkXfermode::Mode values (Skia enum ordering; `mode <= kScreen_Mode` is the
set of modes with direct GL blend-factor equivalents). -/
def kClear_Mode : Nat := 0
def kSrcOver_Mode : Nat := 3
def kScreen_Mode : Nat := 14
def SK_ColorBLACK : Nat := 0xFF000000
def SK_ColorWHITE : Nat := 0xFFFFFFFF

def SkColorGetA (c : Nat) : Nat := (c >>> 24) &&& 0xFF
def SkColorGetR (c : Nat) : Nat := (c >>> 16) &&& 0xFF
def SkColorGetG (c : Nat) : Nat := (c >>> 8) &&& 0xFF
def SkColorGetB (c : Nat) : Nat := c &&& 0xFF

/-! ## Opaque collaborator objects -/

/-- Shader reference (opaque to this core; queried for opacity by
PaintUtils::isBlendedShader and serialized at build time). -/
structure Shader where
  isOpaque : Bool
  gradient : Bool
  bitmap : Bool
  id : Nat
deriving DecidableEq

/-- Shape a color filter can be queried as: asColorMode, asColorMatrix, or
neither (unsupported). -/
inductive ColorFilterShape
  | colorMode (color : Nat) (mode : Nat)
  | colorMatrix (m : Fin 20 → ℚ)
  | unsupported

/-- Color filter reference: queryable shape plus the blended (translucent) flag
read by PaintUtils::isBlendedColorFilter. -/
structure ColorFilter where
  blended : Bool
  shape : ColorFilterShape

/-- Texture object: only the `blend` flag is read by this core. -/
structure Texture where
  blend : Bool
deriving DecidableEq

/-- Paint description, queried for color, shader, color filter, xfermode and
filter quality. -/
structure Paint where
  color : Nat
  shader : Option Shader
  colorFilter : Option ColorFilter
  xfermode : Option Nat
  filterQualityNone : Bool

/-- Layer object as read by setFillTextureLayer. -/
structure Layer where
  texture : Texture
  renderTarget : Nat
  texTransform : Nat
  mode : Nat
  colorFilter : Option ColorFilter

/-- UV remapping function object (UvMapper::map). -/
structure UvMapper where
  map : Rat × Rat × Rat × Rat → Rat × Rat × Rat × Rat

/-- Modelled from the spec: PaintUtils.h is not under src/.  The spec says
blending triggers when "the shader ... is itself blended (translucent)"; the
helper returns true for a present, non-opaque shader. -/
def PaintUtils.isBlendedShader : Option Shader → Bool
  | some s => !s.isOpaque
  | none => false

/-- Modelled from the spec: PaintUtils.h is not under src/.  True for a present,
translucent color filter. -/
def PaintUtils.isBlendedColorFilter : Option ColorFilter → Bool
  | some f => f.blended
  | none => false

/-- Modelled from the spec: PaintUtils.h is not under src/.  GL_LINEAR for a
paint requesting filtering, GL_NEAREST otherwise. -/
def PaintUtils.getFilter : Option Paint → Nat
  | some p => if p.filterQualityNone then GL_NEAREST else GL_LINEAR
  | none => GL_NEAREST

/-- Modelled from the spec: PaintUtils.h is not under src/.  A null xfermode
means source-over. -/
def PaintUtils.getXfermode (x : Option Nat) : Nat := x.getD kSrcOver_Mode

/-! ## Blend factor table -/

inductive ModeOrderSwap
  | noSwap
  | swap
deriving DecidableEq

/-- Modelled from the spec: renderstate/Blend.cpp is not under src/.  The spec
says modes with direct GPU equivalents map to a (source, destination) factor
pair "via a fixed lookup table"; the values follow the standard Porter-Duff
factor table, with the swap flag exchanging the roles of source and
destination coverage. -/
def Blend.getFactors (mode : Nat) (modeUsage : ModeOrderSwap) : Nat × Nat :=
  match modeUsage with
  | .noSwap =>
    if mode = 0 then (GL_ZERO, GL_ONE_MINUS_SRC_ALPHA)
    else if mode = 1 then (GL_ONE, GL_ZERO)
    else if mode = 2 then (GL_ZERO, GL_ONE)
    else if mode = 3 then (GL_ONE, GL_ONE_MINUS_SRC_ALPHA)
    else if mode = 4 then (GL_ONE_MINUS_DST_ALPHA, GL_ONE)
    else if mode = 5 then (GL_DST_ALPHA, GL_ZERO)
    else if mode = 6 then (GL_ZERO, GL_SRC_ALPHA)
    else if mode = 7 then (GL_ONE_MINUS_DST_ALPHA, GL_ZERO)
    else if mode = 8 then (GL_ZERO, GL_ONE_MINUS_SRC_ALPHA)
    else if mode = 9 then (GL_DST_ALPHA, GL_ONE_MINUS_SRC_ALPHA)
    else if mode = 10 then (GL_ONE_MINUS_DST_ALPHA, GL_SRC_ALPHA)
    else if mode = 11 then (GL_ONE_MINUS_DST_ALPHA, GL_ONE_MINUS_SRC_ALPHA)
    else if mode = 12 then (GL_ONE, GL_ONE)
    else if mode = 13 then (GL_ZERO, GL_SRC_COLOR)
    else (GL_ONE, GL_ONE_MINUS_SRC_COLOR)
  | .swap =>
    if mode = 0 then (GL_ZERO, GL_ONE_MINUS_SRC_ALPHA)
    else if mode = 1 then (GL_ZERO, GL_ONE)
    else if mode = 2 then (GL_ONE, GL_ZERO)
    else if mode = 3 then (GL_ONE_MINUS_DST_ALPHA, GL_ONE)
    else if mode = 4 then (GL_ONE, GL_ONE_MINUS_SRC_ALPHA)
    else if mode = 5 then (GL_ZERO, GL_SRC_ALPHA)
    else if mode = 6 then (GL_DST_ALPHA, GL_ZERO)
    else if mode = 7 then (GL_ZERO, GL_ONE_MINUS_SRC_ALPHA)
    else if mode = 8 then (GL_ONE_MINUS_DST_ALPHA, GL_ZERO)
    else if mode = 9 then (GL_ONE_MINUS_DST_ALPHA, GL_SRC_ALPHA)
    else if mode = 10 then (GL_DST_ALPHA, GL_ONE_MINUS_SRC_ALPHA)
    else if mode = 11 then (GL_ONE_MINUS_DST_ALPHA, GL_ONE_MINUS_SRC_ALPHA)
    else if mode = 12 then (GL_ONE, GL_ONE)
    else if mode = 13 then (GL_ZERO, GL_SRC_COLOR)
    else (GL_ONE, GL_ONE_MINUS_SRC_COLOR)

/-! ## Geometry model -/

/-- Rect (left, top, right, bottom) over rationals. -/
structure Rect where
  left : ℚ
  top : ℚ
  right : ℚ
  bottom : ℚ
deriving DecidableEq

def Rect.getWidth (r : Rect) : ℚ := r.right - r.left
def Rect.getHeight (r : Rect) : ℚ := r.bottom - r.top
def Rect.translate (r : Rect) (dx dy : ℚ) : Rect :=
  ⟨r.left + dx, r.top + dy, r.right + dx, r.bottom + dy⟩

/-- Modelled from the spec: Matrix.h is not under src/.  The builder only loads
translate matrices, post-multiplies scales, queries pure-translate-ness and the
translation components, and maps rects at finalization; the model tracks
exactly those observables. -/
structure Matrix4 where
  pureTranslate : Bool
  tx : ℚ
  ty : ℚ
  sx : ℚ
  sy : ℚ
deriving DecidableEq

def Matrix4.loadTranslate (x y _z : ℚ) : Matrix4 := ⟨true, x, y, 1, 1⟩

def Matrix4.scale (m : Matrix4) (w h _d : ℚ) : Matrix4 :=
  { m with
    sx := m.sx * w
    sy := m.sy * h
    pureTranslate := m.pureTranslate && decide (w = 1) && decide (h = 1) }

def Matrix4.isPureTranslate (m : Matrix4) : Bool := m.pureTranslate
def Matrix4.getTranslateX (m : Matrix4) : ℚ := m.tx
def Matrix4.getTranslateY (m : Matrix4) : ℚ := m.ty

def Matrix4.mapRect (m : Matrix4) (r : Rect) : Rect :=
  ⟨m.sx * r.left + m.tx, m.sy * r.top + m.ty, m.sx * r.right + m.tx, m.sy * r.bottom + m.ty⟩

/-- Identity matrix value for zero-initialized transform state. -/
def Matrix4.identity : Matrix4 := ⟨true, 0, 0, 1, 1⟩

/-! ## Vertex / pointer model -/

/-- Vertex attribute flag set (VertexAttribFlags bitmask, one field per bit). -/
structure VertexAttribFlags where
  textureCoord : Bool
  color : Bool
  alpha : Bool
deriving DecidableEq

def VertexAttribFlags.kNone : VertexAttribFlags := ⟨false, false, false⟩
def VertexAttribFlags.kTextureCoordOnly : VertexAttribFlags := ⟨true, false, false⟩

/-- Raw data pointers appearing in mesh descriptors, modelled symbolically. -/
inductive Ptr
  | null
  | meshTextureOffset
  | mappedVerticesPos
  | mappedVerticesUv
  | external (id : Nat)
  | externalUv (id : Nat)
  | externalColor (id : Nat)
  | patchPositionOffset (off : Nat)
  | patchTextureOffset (off : Nat)
deriving DecidableEq

/-- Vertex strides (sizeof the vertex structs, bytes). -/
def kVertexStride : Nat := 8
def kAlphaVertexStride : Nat := 12
def kTextureVertexStride : Nat := 16
def kColorTextureVertexStride : Nat := 32

structure TextureVertex where
  x : ℚ
  y : ℚ
  u : ℚ
  v : ℚ
deriving DecidableEq

/-- Glop::Mesh::Vertices. -/
structure MeshVertices where
  bufferObject : Nat
  attribFlags : VertexAttribFlags
  position : Ptr
  texCoord : Ptr
  color : Ptr
  stride : Nat
deriving DecidableEq

/-- Glop::Mesh::Indices. -/
structure MeshIndices where
  bufferObject : Nat
  indices : Ptr
deriving DecidableEq

/-- Glop::Mesh. -/
structure Mesh where
  primitiveMode : Nat
  indices : MeshIndices
  vertices : MeshVertices
  mappedVertices : Fin 4 → TextureVertex
  elementCount : Int

/-! ## Fill / blend / descriptor model -/

structure FloatColor where
  r : ℚ
  g : ℚ
  b : ℚ
  a : ℚ
deriving DecidableEq

/-- Modelled from the spec: FloatColor lives in a header not under src/; its
isNotBlack query (used for the modulate flag on alpha-mask fills) is true when
the color is translucent or any channel is nonzero. -/
def FloatColor.isNotBlack (c : FloatColor) : Bool :=
  decide (c.a < 1) || decide (0 < c.r) || decide (0 < c.g) || decide (0 < c.b)

/-- Glop::Fill::Texture. -/
structure FillTexture where
  texture : Option Texture
  target : Nat
  filter : Nat
  clamp : Nat
  textureTransform : Option Nat
deriving DecidableEq

/-- Color-filter matrix payload: 4x4 row-major matrix plus offset vector. -/
structure FilterMatrix where
  matrix : Fin 16 → ℚ
  vector : Fin 4 → ℚ

inductive ColorOp
  | kColorNone
  | kColorBlend
  | kColorMatrix
deriving DecidableEq

/-- Glop::Fill (filter union modelled as both members side by side, selected by
filterMode). -/
structure Fill where
  texture : FillTexture
  color : FloatColor
  filterMode : ColorOp
  filterColor : FloatColor
  filterMatrix : FilterMatrix
  skiaShaderData : Option Nat
  program : Option Nat
  colorEnabled : Bool

structure BlendPair where
  src : Nat
  dst : Nat
deriving DecidableEq

structure GlopTransform where
  ortho : Matrix4
  canvas : Matrix4
  modelView : Matrix4
  fudgingOffset : Bool
deriving DecidableEq

/-- The draw descriptor (Glop). -/
structure Glop where
  mesh : Mesh
  fill : Fill
  blend : BlendPair
  transform : GlopTransform
  roundRectClipState : Option Nat
  bounds : Rect

/-- ProgramDescription: the shader-variant descriptor fields this file touches. -/
structure ProgramDescription where
  hasTexture : Bool
  hasExternalTexture : Bool
  hasColors : Bool
  hasVertexAlpha : Bool
  hasAlpha8Texture : Bool
  modulate : Bool
  hasTextureTransform : Bool
  hasRoundRectClip : Bool
  useShadowAlphaInterp : Bool
  hasGradient : Bool
  hasBitmap : Bool
  colorOp : ColorOp
  colorMode : Nat
  framebufferMode : Nat
  swapSrcDst : Bool
deriving DecidableEq

def ProgramDescription.init : ProgramDescription :=
  ⟨false, false, false, false, false, false, false, false, false, false, false,
   .kColorNone, 0, 0, false⟩

/-! ## External state reached through the builder -/

/-- Mesh/render state handles read by the mesh setters. -/
structure RenderState where
  unitQuadVBO : Nat
  quadListIBO : Nat
deriving DecidableEq

/-- Caches: framebuffer-fetch capability, patch mesh buffer, program cache. -/
structure Caches where
  hasFramebufferFetch : Bool
  patchMeshBuffer : Nat
  programCacheGet : ProgramDescription → Nat

/-- VertexBuffer object as read by setMeshVertexBuffer. -/
structure VertexBuffer where
  alphaFlag : Bool
  indicesFlag : Bool
  indicesPtr : Ptr
  bufferPtr : Ptr
  indexCount : Nat
  vertexCount : Nat

/-- Patch layout as read by setMeshPatchQuads. -/
structure Patch where
  positionOffset : Nat
  textureOffset : Nat
  indexCount : Nat
deriving DecidableEq

/-- TextureFillFlags bitmask. -/
structure TextureFillFlags where
  isAlphaMaskTexture : Bool
  forceFilter : Bool
deriving DecidableEq

/-! ## Stage tracking -/

inductive Stage
  | mesh
  | fill
  | transformStage
  | modelView
  | roundRectClip
deriving DecidableEq

structure StageFlags where
  mesh : Bool
  fill : Bool
  transformStage : Bool
  modelView : Bool
  roundRectClip : Bool
deriving DecidableEq

def StageFlags.initial : StageFlags := ⟨false, false, false, false, false⟩

def StageFlags.get (f : StageFlags) : Stage → Bool
  | .mesh => f.mesh
  | .fill => f.fill
  | .transformStage => f.transformStage
  | .modelView => f.modelView
  | .roundRectClip => f.roundRectClip

def StageFlags.set (f : StageFlags) : Stage → StageFlags
  | .mesh => { f with mesh := true }
  | .fill => { f with fill := true }
  | .transformStage => { f with transformStage := true }
  | .modelView => { f with modelView := true }
  | .roundRectClip => { f with roundRectClip := true }

/-- Modelled from the spec: GlopBuilder.h (stage flag constants) is not under
src/; per the spec, build() requires the mask {Mesh, Fill, Transform,
ModelView} and RoundRectClip is optional. -/
def kAllStages : List Stage := [.mesh, .fill, .transformStage, .modelView]

/-- Fatal conditions (LOG_ALWAYS_FATAL sites). -/
inductive Fatal
  | stageRepeated (s : Stage)
  | stageMissing
  | unsupportedColorFilter
  | verifyTexture
  | verifyVboAlpha
  | verifyTextureTransform
deriving DecidableEq

/-! ## The builder -/

structure Builder where
  renderState : RenderState
  caches : Caches
  shader : Option Shader
  glop : Glop
  description : ProgramDescription
  stageFlags : StageFlags

/-- TRIGGER_STAGE macro: fatal when the stage already ran, else records it. -/
def triggerStage (s : Stage) (b : Builder) : Except Fatal Builder :=
  if b.stageFlags.get s then .error (.stageRepeated s)
  else .ok { b with stageFlags := b.stageFlags.set s }

/-- REQUIRE_STAGES macro: fatal unless all required stages already ran. -/
def requireStages (l : List Stage) (b : Builder) : Except Fatal Builder :=
  if l.all b.stageFlags.get then .ok b else .error .stageMissing

/-! ## Mesh setters -/

/-- setUnitQuadTextureCoords: fills the four mapped vertices from a UV rect. -/
def setUnitQuadTextureCoords (uvs : Rect) : Fin 4 → TextureVertex
  | 0 => ⟨0, 0, uvs.left, uvs.top⟩
  | 1 => ⟨1, 0, uvs.right, uvs.top⟩
  | 2 => ⟨0, 1, uvs.left, uvs.bottom⟩
  | 3 => ⟨1, 1, uvs.right, uvs.bottom⟩

def Builder.setMeshUnitQuad (b : Builder) : Except Fatal Builder := do
  let b ← triggerStage .mesh b
  .ok { b with glop := { b.glop with mesh := { b.glop.mesh with
          primitiveMode := GL_TRIANGLE_STRIP
          indices := ⟨0, .null⟩
          vertices := ⟨b.renderState.unitQuadVBO, .kNone, .null, .null, .null,
            kTextureVertexStride⟩
          elementCount := 4 } } }

def Builder.setMeshTexturedUvQuad (b : Builder) (uvMapper : Option UvMapper)
    (uvs : Rect) : Except Fatal Builder := do
  let b ← triggerStage .mesh b
  let uvs :=
    match uvMapper with
    | some m =>
      let (l, t, r, bo) := m.map (uvs.left, uvs.top, uvs.right, uvs.bottom)
      Rect.mk l t r bo
    | none => uvs
  .ok { b with glop := { b.glop with mesh := { b.glop.mesh with
          primitiveMode := GL_TRIANGLE_STRIP
          indices := ⟨0, .null⟩
          mappedVertices := setUnitQuadTextureCoords uvs
          vertices := ⟨0, .kTextureCoordOnly, .mappedVerticesPos, .mappedVerticesUv,
            .null, kTextureVertexStride⟩
          elementCount := 4 } } }

def Builder.setMeshTexturedUnitQuad (b : Builder) (uvMapper : Option UvMapper) :
    Except Fatal Builder :=
  if uvMapper.isSome then
    -- cannot use the unit quad VBO, so build UV vertices manually
    b.setMeshTexturedUvQuad uvMapper ⟨0, 0, 1, 1⟩
  else do
    let b ← triggerStage .mesh b
    .ok { b with glop := { b.glop with mesh := { b.glop.mesh with
            primitiveMode := GL_TRIANGLE_STRIP
            indices := ⟨0, .null⟩
            vertices := ⟨b.renderState.unitQuadVBO, .kTextureCoordOnly, .null,
              .meshTextureOffset, .null, kTextureVertexStride⟩
            elementCount := 4 } } }

def Builder.setMeshIndexedQuads (b : Builder) (vertexData : Nat) (quadCount : Int) :
    Except Fatal Builder := do
  let b ← triggerStage .mesh b
  .ok { b with glop := { b.glop with mesh := { b.glop.mesh with
          primitiveMode := GL_TRIANGLES
          indices := ⟨b.renderState.quadListIBO, .null⟩
          vertices := ⟨0, .kNone, .external vertexData, .null, .null, kVertexStride⟩
          elementCount := 6 * quadCount } } }

def Builder.setMeshTexturedIndexedQuads (b : Builder) (vertexData : Nat)
    (elementCount : Int) : Except Fatal Builder := do
  let b ← triggerStage .mesh b
  .ok { b with glop := { b.glop with mesh := { b.glop.mesh with
          primitiveMode := GL_TRIANGLES
          indices := ⟨b.renderState.quadListIBO, .null⟩
          vertices := ⟨0, .kTextureCoordOnly, .external vertexData,
            .externalUv vertexData, .null, kTextureVertexStride⟩
          elementCount := elementCount } } }

def Builder.setMeshTexturedMesh (b : Builder) (vertexData : Nat)
    (elementCount : Int) : Except Fatal Builder := do
  let b ← triggerStage .mesh b
  .ok { b with glop := { b.glop with mesh := { b.glop.mesh with
          primitiveMode := GL_TRIANGLES
          indices := ⟨0, .null⟩
          vertices := ⟨0, .kTextureCoordOnly, .external vertexData,
            .externalUv vertexData, .null, kTextureVertexStride⟩
          elementCount := elementCount } } }

def Builder.setMeshColoredTexturedMesh (b : Builder) (vertexData : Nat)
    (elementCount : Int) : Except Fatal Builder := do
  let b ← triggerStage .mesh b
  .ok { b with glop := { b.glop with mesh := { b.glop.mesh with
          primitiveMode := GL_TRIANGLES
          indices := ⟨0, .null⟩
          vertices := ⟨0, ⟨true, true, false⟩, .external vertexData,
            .externalUv vertexData, .externalColor vertexData,
            kColorTextureVertexStride⟩
          elementCount := elementCount } } }

def Builder.setMeshVertexBuffer (b : Builder) (vertexBuffer : VertexBuffer)
    (shadowInterp : Bool) : Except Fatal Builder := do
  let b ← triggerStage .mesh b
  let alphaVertex := vertexBuffer.alphaFlag
  let indices := vertexBuffer.indicesFlag
  .ok { b with
    glop := { b.glop with mesh := { b.glop.mesh with
      primitiveMode := GL_TRIANGLE_STRIP
      indices := ⟨0, vertexBuffer.indicesPtr⟩
      vertices := ⟨0,
        if alphaVertex then ⟨false, false, true⟩ else .kNone,
        vertexBuffer.bufferPtr, .null, .null,
        if alphaVertex then kAlphaVertexStride else kVertexStride⟩
      elementCount := if indices then vertexBuffer.indexCount else
        vertexBuffer.vertexCount } }
    description := { b.description with useShadowAlphaInterp := shadowInterp } }

def Builder.setMeshPatchQuads (b : Builder) (patch : Patch) :
    Except Fatal Builder := do
  let b ← triggerStage .mesh b
  .ok { b with glop := { b.glop with mesh := { b.glop.mesh with
          primitiveMode := GL_TRIANGLES
          indices := ⟨b.renderState.quadListIBO, .null⟩
          vertices := ⟨b.caches.patchMeshBuffer, .kTextureCoordOnly,
            .patchPositionOffset patch.positionOffset,
            .patchTextureOffset patch.textureOffset, .null, kTextureVertexStride⟩
          elementCount := patch.indexCount } } }

/-! ## Fill core (GlopBuilder::setFill) -/

/-- Color resolution step of setFill: clear mode forces opaque black; a shader
forces (1,1,1,alpha); otherwise the color is premultiplied by colorScale =
alpha / 255. -/
def resolveFillColor (color : Nat) (alphaScale : ℚ) (mode : Nat)
    (shader : Option Shader) : FloatColor :=
  if mode ≠ kClear_Mode then
    let alpha := ((SkColorGetA color : ℚ) / 255) * alphaScale
    if shader.isNone then
      let colorScale := alpha / 255
      ⟨colorScale * (SkColorGetR color : ℚ), colorScale * (SkColorGetG color : ℚ),
       colorScale * (SkColorGetB color : ℚ), alpha⟩
    else ⟨1, 1, 1, alpha⟩
  else ⟨0, 0, 0, 1⟩

/-- Repacked 4x4 color matrix: rows of 4 copied from input rows of 5 (the
memcpy block in setFill). -/
def repackColorMatrix (src : Fin 20 → ℚ) : Fin 16 → ℚ := fun i =>
  if h : (i : Nat) < 4 then src ⟨i, by omega⟩
  else if h8 : (i : Nat) < 8 then src ⟨(i : Nat) + 1, by omega⟩
  else if h12 : (i : Nat) < 12 then src ⟨(i : Nat) + 2, by omega⟩
  else src ⟨(i : Nat) + 3, by omega⟩

/-- Offset vector: input indices 4, 9, 14, 19 rescaled from [0,255] to [0,1]. -/
def repackColorVector (src : Fin 20 → ℚ) : Fin 4 → ℚ := fun j =>
  src ⟨5 * (j : Nat) + 4, by omega⟩ / 255

/-- The texture-needs-blending disjunct of setFill:
`fill.texture.texture && fill.texture.texture->blend`. -/
def fillTextureBlends (g : Glop) : Bool :=
  match g.fill.texture.texture with
  | some t => t.blend
  | none => false

/-- Blend-factor resolution step of setFill, given the already-resolved fill
color: default no blending; when blending is required, direct modes map
through the factor table, shader-blended modes either record the mode (with
framebuffer fetch) or fall back to SrcOver. Returns the blend pair and the
updated description. -/
def resolveBlend (b : Builder) (fillColor : FloatColor) (mode : Nat)
    (modeUsage : ModeOrderSwap) (shader : Option Shader)
    (colorFilter : Option ColorFilter) : BlendPair × ProgramDescription :=
  let blendNeeded : Bool :=
    decide (fillColor.a < 1)
    || b.glop.mesh.vertices.attribFlags.alpha
    || fillTextureBlends b.glop
    || b.glop.roundRectClipState.isSome
    || PaintUtils.isBlendedShader shader
    || PaintUtils.isBlendedColorFilter colorFilter
    || decide (mode ≠ kSrcOver_Mode)
  if blendNeeded then
    if mode ≤ kScreen_Mode then
      (⟨(Blend.getFactors mode modeUsage).1, (Blend.getFactors mode modeUsage).2⟩,
       b.description)
    else if b.caches.hasFramebufferFetch then
      -- blending performed in the shader: record mode, leave factors disabled
      (⟨GL_ZERO, GL_ZERO⟩,
       { b.description with
         framebufferMode := mode
         swapSrcDst := modeUsage = ModeOrderSwap.swap })
    else
      -- unsupported: fall back to SrcOver
      (⟨(Blend.getFactors kSrcOver_Mode modeUsage).1,
        (Blend.getFactors kSrcOver_Mode modeUsage).2⟩,
       b.description)
  else (⟨GL_ZERO, GL_ZERO⟩, b.description)

/-- GlopBuilder::setFill: color resolution, blend-factor resolution and
color-filter resolution, mutating the output glop and the shader-variant
description; fatal on an unsupported color filter. -/
def Builder.setFill (b : Builder) (color : Nat) (alphaScale : ℚ) (mode : Nat)
    (modeUsage : ModeOrderSwap) (shader : Option Shader)
    (colorFilter : Option ColorFilter) : Except Fatal Builder :=
  let fillColor := resolveFillColor color alphaScale mode shader
  let (blendPair, d) := resolveBlend b fillColor mode modeUsage shader colorFilter
  match colorFilter with
  | some f =>
    match f.shape with
    | .colorMode c m2 =>
      let alpha := (SkColorGetA c : ℚ) / 255
      let colorScale := alpha / 255
      .ok { b with
        shader := shader
        glop := { b.glop with
          fill := { b.glop.fill with
            color := fillColor
            filterMode := .kColorBlend
            filterColor := ⟨colorScale * (SkColorGetR c : ℚ),
              colorScale * (SkColorGetG c : ℚ),
              colorScale * (SkColorGetB c : ℚ), alpha⟩ }
          blend := blendPair }
        description := { d with colorOp := .kColorBlend, colorMode := m2 } }
    | .colorMatrix src =>
      .ok { b with
        shader := shader
        glop := { b.glop with
          fill := { b.glop.fill with
            color := fillColor
            filterMode := .kColorMatrix
            filterMatrix := ⟨repackColorMatrix src, repackColorVector src⟩ }
          blend := blendPair }
        description := { d with colorOp := .kColorMatrix } }
    | .unsupported => .error .unsupportedColorFilter
  | none =>
    .ok { b with
      shader := shader
      glop := { b.glop with
        fill := { b.glop.fill with color := fillColor, filterMode := .kColorNone }
        blend := blendPair }
      description := d }

/-! ## Fill-setting variants -/

def Builder.setFillTexturePaint (b : Builder) (texture : Texture)
    (textureFillFlags : TextureFillFlags) (paint : Option Paint)
    (alphaScale : ℚ) : Except Fatal Builder := do
  let b ← triggerStage .fill b
  let b ← requireStages [.mesh] b
  let filter := if textureFillFlags.forceFilter then GL_LINEAR
    else PaintUtils.getFilter paint
  let b : Builder := { b with glop := { b.glop with fill := { b.glop.fill with
    texture := ⟨some texture, GL_TEXTURE_2D, filter, GL_CLAMP_TO_EDGE, none⟩ } } }
  let b ←
    match paint with
    | some p =>
      let color := p.color
      let shader := p.shader
      let (color, shader) :=
        if !textureFillFlags.isAlphaMaskTexture then
          -- texture defines color: disable shaders, reset non-alpha channels
          (color ||| 0x00FFFFFF, none)
        else (color, shader)
      b.setFill color alphaScale (PaintUtils.getXfermode p.xfermode) .noSwap
        shader p.colorFilter
    | none =>
      let blendNeeded : Bool :=
        decide (alphaScale < 1)
        || b.glop.mesh.vertices.attribFlags.alpha
        || texture.blend
        || b.glop.roundRectClipState.isSome
      .ok { b with glop := { b.glop with
        fill := { b.glop.fill with
          color := ⟨alphaScale, alphaScale, alphaScale, alphaScale⟩ }
        blend := if blendNeeded then
            ⟨(Blend.getFactors kSrcOver_Mode .noSwap).1,
             (Blend.getFactors kSrcOver_Mode .noSwap).2⟩
          else ⟨GL_ZERO, GL_ZERO⟩ } }
  if textureFillFlags.isAlphaMaskTexture then
    .ok { b with description := { b.description with
      modulate := b.glop.fill.color.isNotBlack
      hasAlpha8Texture := true } }
  else
    .ok { b with description := { b.description with
      modulate := decide (b.glop.fill.color.a < 1) } }

def noFillTexture : FillTexture :=
  ⟨none, GL_INVALID_ENUM, GL_INVALID_ENUM, GL_INVALID_ENUM, none⟩

def Builder.setFillPaint (b : Builder) (paint : Paint) (alphaScale : ℚ) :
    Except Fatal Builder := do
  let b ← triggerStage .fill b
  let b ← requireStages [.mesh] b
  let b : Builder := { b with glop := { b.glop with
    fill := { b.glop.fill with texture := noFillTexture } } }
  let b ← b.setFill paint.color alphaScale (PaintUtils.getXfermode paint.xfermode)
    .noSwap paint.shader paint.colorFilter
  .ok { b with description := { b.description with
    modulate := decide (b.glop.fill.color.a < 1) } }

def Builder.setFillPathTexturePaint (b : Builder) (texture : Texture)
    (paint : Paint) (alphaScale : ℚ) : Except Fatal Builder := do
  let b ← triggerStage .fill b
  let b ← requireStages [.mesh] b
  -- invalid filter/clamp: always static for path textures
  let b : Builder := { b with glop := { b.glop with fill := { b.glop.fill with
    texture := ⟨some texture, GL_TEXTURE_2D, GL_INVALID_ENUM, GL_INVALID_ENUM,
      none⟩ } } }
  let b ← b.setFill paint.color alphaScale (PaintUtils.getXfermode paint.xfermode)
    .noSwap paint.shader paint.colorFilter
  .ok { b with description := { b.description with
    hasAlpha8Texture := true
    modulate := b.glop.fill.color.isNotBlack } }

def Builder.setFillShadowTexturePaint (b : Builder) (texture : Texture)
    (shadowColor : Nat) (paint : Paint) (alphaScale : ℚ) :
    Except Fatal Builder := do
  let b ← triggerStage .fill b
  let b ← requireStages [.mesh] b
  let b : Builder := { b with glop := { b.glop with fill := { b.glop.fill with
    texture := ⟨some texture, GL_TEXTURE_2D, GL_INVALID_ENUM, GL_INVALID_ENUM,
      none⟩ } } }
  let shadowColor :=
    if shadowColor &&& 0xFF000000 = 0xFF000000 then
      -- fully opaque shadow: override its alpha with that of paint
      shadowColor &&& (paint.color ||| 0x00FFFFFF)
    else shadowColor
  let b ← b.setFill shadowColor alphaScale (PaintUtils.getXfermode paint.xfermode)
    .noSwap paint.shader paint.colorFilter
  .ok { b with description := { b.description with
    hasAlpha8Texture := true
    modulate := b.glop.fill.color.isNotBlack } }

def Builder.setFillBlack (b : Builder) : Except Fatal Builder := do
  let b ← triggerStage .fill b
  let b ← requireStages [.mesh] b
  let b : Builder := { b with glop := { b.glop with
    fill := { b.glop.fill with texture := noFillTexture } } }
  b.setFill SK_ColorBLACK 1 kSrcOver_Mode .noSwap none none

def Builder.setFillClear (b : Builder) : Except Fatal Builder := do
  let b ← triggerStage .fill b
  let b ← requireStages [.mesh] b
  let b : Builder := { b with glop := { b.glop with
    fill := { b.glop.fill with texture := noFillTexture } } }
  b.setFill SK_ColorBLACK 1 kClear_Mode .noSwap none none

def Builder.setFillLayer (b : Builder) (texture : Texture)
    (colorFilter : Option ColorFilter) (alpha : ℚ) (mode : Nat)
    (modeUsage : ModeOrderSwap) : Except Fatal Builder := do
  let b ← triggerStage .fill b
  let b ← requireStages [.mesh] b
  let b : Builder := { b with glop := { b.glop with fill := { b.glop.fill with
    texture := ⟨some texture, GL_TEXTURE_2D, GL_LINEAR, GL_CLAMP_TO_EDGE, none⟩
    color := ⟨alpha, alpha, alpha, alpha⟩ } } }
  let b ← b.setFill SK_ColorWHITE alpha mode modeUsage none colorFilter
  .ok { b with description := { b.description with
    modulate := decide (b.glop.fill.color.a < 1) } }

def Builder.setFillTextureLayer (b : Builder) (layer : Layer) (alpha : ℚ) :
    Except Fatal Builder := do
  let b ← triggerStage .fill b
  let b ← requireStages [.mesh] b
  let b : Builder := { b with glop := { b.glop with fill := { b.glop.fill with
    texture := ⟨some layer.texture, layer.renderTarget, GL_LINEAR,
      GL_CLAMP_TO_EDGE, some layer.texTransform⟩
    color := ⟨alpha, alpha, alpha, alpha⟩ } } }
  let b ← b.setFill SK_ColorWHITE alpha layer.mode .noSwap none layer.colorFilter
  .ok { b with description := { b.description with
    modulate := decide (b.glop.fill.color.a < 1)
    hasTextureTransform := true } }

/-! ## Transform / ModelView / RoundRectClip -/

def Builder.setTransform (b : Builder) (ortho : Matrix4) (transform : Matrix4)
    (fudgingOffset : Bool) : Except Fatal Builder := do
  let b ← triggerStage .transformStage b
  .ok { b with glop := { b.glop with transform := { b.glop.transform with
    ortho := ortho
    canvas := transform
    fudgingOffset := fudgingOffset } } }

def Builder.setModelViewMapUnitToRect (b : Builder) (destination : Rect) :
    Except Fatal Builder := do
  let b ← triggerStage .modelView b
  let mv := (Matrix4.loadTranslate destination.left destination.top 0).scale
    destination.getWidth destination.getHeight 1
  .ok { b with glop := { b.glop with
    transform := { b.glop.transform with modelView := mv }
    bounds := destination } }

def Builder.setModelViewMapUnitToRectSnap (b : Builder) (destination : Rect) :
    Except Fatal Builder := do
  let b ← triggerStage .modelView b
  let b ← requireStages [.transformStage, .fill] b
  let canvasTransform := b.glop.transform.canvas
  let (left, top, fillTexture) :=
    if canvasTransform.isPureTranslate then
      let translateX := canvasTransform.getTranslateX
      let translateY := canvasTransform.getTranslateY
      (((Rat.floor (destination.left + translateX + 1/2) : ℚ)) - translateX,
       ((Rat.floor (destination.top + translateY + 1/2) : ℚ)) - translateY,
       { b.glop.fill.texture with filter := GL_NEAREST })
    else (destination.left, destination.top, b.glop.fill.texture)
  let mv := (Matrix4.loadTranslate left top 0).scale destination.getWidth
    destination.getHeight 1
  .ok { b with glop := { b.glop with
    fill := { b.glop.fill with texture := fillTexture }
    transform := { b.glop.transform with modelView := mv }
    bounds := destination } }

def Builder.setModelViewOffsetRect (b : Builder) (offsetX offsetY : ℚ)
    (source : Rect) : Except Fatal Builder := do
  let b ← triggerStage .modelView b
  let mv := Matrix4.loadTranslate offsetX offsetY 0
  .ok { b with glop := { b.glop with
    transform := { b.glop.transform with modelView := mv }
    bounds := source.translate offsetX offsetY } }

def Builder.setModelViewOffsetRectSnap (b : Builder) (offsetX offsetY : ℚ)
    (source : Rect) : Except Fatal Builder := do
  let b ← triggerStage .modelView b
  let b ← requireStages [.transformStage, .fill] b
  let canvasTransform := b.glop.transform.canvas
  let (offsetX, offsetY, fillTexture) :=
    if canvasTransform.isPureTranslate then
      let translateX := canvasTransform.getTranslateX
      let translateY := canvasTransform.getTranslateY
      (((Rat.floor (offsetX + translateX + source.left + 1/2) : ℚ))
         - translateX - source.left,
       ((Rat.floor (offsetY + translateY + source.top + 1/2) : ℚ))
         - translateY - source.top,
       { b.glop.fill.texture with filter := GL_NEAREST })
    else (offsetX, offsetY, b.glop.fill.texture)
  let mv := Matrix4.loadTranslate offsetX offsetY 0
  .ok { b with glop := { b.glop with
    fill := { b.glop.fill with texture := fillTexture }
    transform := { b.glop.transform with modelView := mv }
    bounds := source.translate offsetX offsetY } }

def Builder.setRoundRectClipState (b : Builder)
    (roundRectClipState : Option Nat) : Except Fatal Builder := do
  let b ← triggerStage .roundRectClip b
  .ok { b with
    glop := { b.glop with roundRectClipState := roundRectClipState }
    description := { b.description with
      hasRoundRectClip := roundRectClipState.isSome } }

/-! ## Verification and build -/

/-- The free function verify(description, glop): cross-field consistency checks
run at finalization; fatal on violation. -/
def verify (d : ProgramDescription) (g : Glop) : Except Fatal Unit :=
  let texCheckFails : Bool :=
    if g.fill.texture.texture.isSome then
      (d.hasTexture && d.hasExternalTexture)
        || (!d.hasTexture && !d.hasExternalTexture)
        || !g.mesh.vertices.attribFlags.textureCoord
    else
      d.hasTexture || d.hasExternalTexture
        || g.mesh.vertices.attribFlags.textureCoord
  if texCheckFails then .error .verifyTexture
  else if g.mesh.vertices.attribFlags.alpha
      && g.mesh.vertices.bufferObject != 0 then .error .verifyVboAlpha
  else if d.hasTextureTransform != g.fill.texture.textureTransform.isSome then
    .error .verifyTextureTransform
  else .ok ()

/-- Modelled from the spec: SkiaShader.h is not under src/.  The stored shader
reference is serialized into an opaque shader-data payload plus further
shader-variant flags (gradient/bitmap presence), given the model-view matrix
and the texture unit to bind at. -/
def SkiaShader.store (shader : Option Shader) (_modelView : Matrix4)
    (_textureUnit : Nat) (d : ProgramDescription) :
    ProgramDescription × Option Nat :=
  match shader with
  | none => (d, none)
  | some s =>
    ({ d with hasGradient := s.gradient, hasBitmap := s.bitmap }, some s.id)

def Builder.build (b : Builder) : Except Fatal Builder := do
  let b ← requireStages kAllStages b
  let d := b.description
  let d :=
    if b.glop.mesh.vertices.attribFlags.textureCoord then
      if b.glop.fill.texture.target = GL_TEXTURE_2D then
        { d with hasTexture := true }
      else
        { d with hasExternalTexture := true }
    else d
  let d := { d with
    hasColors := b.glop.mesh.vertices.attribFlags.color
    hasVertexAlpha := b.glop.mesh.vertices.attribFlags.alpha }
  -- serialize shader info into ShaderData
  let textureUnit := if b.glop.fill.texture.texture.isSome then 1 else 0
  let (d, shaderData) :=
    SkiaShader.store b.shader b.glop.transform.modelView textureUnit d
  -- duplicates ProgramCache definition of color uniform presence
  let singleColor := !d.hasTexture && !d.hasExternalTexture
    && !d.hasGradient && !d.hasBitmap
  let g := { b.glop with fill := { b.glop.fill with
    skiaShaderData := shaderData
    colorEnabled := d.modulate || singleColor } }
  let _ ← verify d g
  -- final step: populate program and map bounds into render target space
  let g := { g with
    fill := { g.fill with program := some (b.caches.programCacheGet d) }
    bounds := g.transform.canvas.mapRect g.bounds }
  .ok { b with glop := g, description := d }

/-! ## Concrete sample state used by witnesses -/

def sampleMesh : Mesh :=
  ⟨GL_TRIANGLE_STRIP, ⟨0, .null⟩, ⟨0, .kNone, .null, .null, .null, kVertexStride⟩,
   fun _ => ⟨0, 0, 0, 0⟩, 0⟩

def sampleFilterMatrix : FilterMatrix := ⟨fun _ => 0, fun _ => 0⟩

def sampleFill : Fill :=
  ⟨noFillTexture, ⟨0, 0, 0, 0⟩, .kColorNone, ⟨0, 0, 0, 0⟩, sampleFilterMatrix,
   none, none, false⟩

def sampleTransform : GlopTransform :=
  ⟨Matrix4.identity, Matrix4.identity, Matrix4.identity, false⟩

def sampleGlop : Glop :=
  ⟨sampleMesh, sampleFill, ⟨GL_ZERO, GL_ZERO⟩, sampleTransform, none, ⟨0, 0, 0, 0⟩⟩

def sampleCaches : Caches := ⟨false, 0, fun _ => 0⟩

/-- A freshly constructed builder over zero-initialized output state. -/
def sampleBuilder : Builder :=
  ⟨⟨7, 8⟩, sampleCaches, none, sampleGlop, ProgramDescription.init,
   StageFlags.initial⟩

/-- The sample builder with every stage already entered. -/
def sampleBuilderAll : Builder :=
  { sampleBuilder with stageFlags := ⟨true, true, true, true, true⟩ }

/-- The sample builder with the four required stages entered and the optional
round-rect-clip stage not entered. -/
def sampleBuilderReady : Builder :=
  { sampleBuilder with stageFlags := ⟨true, true, true, true, false⟩ }

/-! ## Theorems -/

/-- Reduction of Except bind on a success value. -/
theorem exceptOkBind {α β : Type} (a : α) (f : α → Except Fatal β) :
    (Except.ok a >>= f) = f a := rfl

/-- Reduction of Except bind on an error value. -/
theorem exceptErrorBind {α β : Type} (e : Fatal) (f : α → Except Fatal β) :
    ((Except.error e : Except Fatal α) >>= f) = Except.error e := rfl

/-- Helper: a successful setFill stores the resolved fill color and blend pair,
and carries over the framebuffer-mode fields of the resolved description. -/
theorem setFill_ok_parts (b : Builder) (color : Nat) (alphaScale : ℚ)
    (mode : Nat) (modeUsage : ModeOrderSwap) (shader : Option Shader)
    (colorFilter : Option ColorFilter) (b2 : Builder)
    (h : b.setFill color alphaScale mode modeUsage shader colorFilter = .ok b2) :
    b2.glop.fill.color = resolveFillColor color alphaScale mode shader
    ∧ b2.glop.blend = (resolveBlend b
        (resolveFillColor color alphaScale mode shader) mode modeUsage shader
        colorFilter).1
    ∧ b2.description.framebufferMode = (resolveBlend b
        (resolveFillColor color alphaScale mode shader) mode modeUsage shader
        colorFilter).2.framebufferMode
    ∧ b2.description.swapSrcDst = (resolveBlend b
        (resolveFillColor color alphaScale mode shader) mode modeUsage shader
        colorFilter).2.swapSrcDst := by
  rcases colorFilter with _ | ⟨blended, shape⟩
  · simp only [Builder.setFill, Except.ok.injEq] at h
    subst h
    simp
  · rcases shape with ⟨fc, fm⟩ | fm | _
    · simp only [Builder.setFill, Except.ok.injEq] at h
      subst h
      simp
    · simp only [Builder.setFill, Except.ok.injEq] at h
      subst h
      simp
    · simp only [Builder.setFill] at h
      exact absurd h (by simp)

/-- C3: for every input color, alpha multiplier, shader and color filter, the
core fill-resolution algorithm invoked with blend mode clear stores the
premultiplied fill color (0,0,0,1) in the descriptor, independent of the
input color and of whether a shader is present. -/
theorem setFill_clear_forces_opaque_black (b : Builder) (color : Nat)
    (alphaScale : ℚ) (modeUsage : ModeOrderSwap) (shader : Option Shader)
    (colorFilter : Option ColorFilter) (b2 : Builder)
    (h : b.setFill color alphaScale kClear_Mode modeUsage shader colorFilter
      = .ok b2) :
    b2.glop.fill.color = ⟨0, 0, 0, 1⟩ := by
  have hc : resolveFillColor color alphaScale kClear_Mode shader = ⟨0, 0, 0, 1⟩ := by
    simp [resolveFillColor, kClear_Mode]
  rcases colorFilter with _ | ⟨blended, shape⟩
  · simp only [Builder.setFill, Except.ok.injEq] at h
    subst h
    simp [hc]
  · rcases shape with ⟨fc, fm⟩ | fm | _
    · simp only [Builder.setFill, Except.ok.injEq] at h
      subst h
      simp [hc]
    · simp only [Builder.setFill, Except.ok.injEq] at h
      subst h
      simp [hc]
    · simp only [Builder.setFill] at h
      exact absurd h (by simp)

def clearSample : Builder :=
  (sampleBuilder.setFill 0xFF123456 (1/2) kClear_Mode .noSwap none
    none).toOption.getD sampleBuilder

theorem setFill_clear_forces_opaque_black_witness :
    clearSample.glop.fill.color = ⟨0, 0, 0, 1⟩ :=
  setFill_clear_forces_opaque_black sampleBuilder 0xFF123456 (1/2) .noSwap none
    none clearSample (by rfl)

/-- C2: the verification pass fails fatally when the mesh carries the
texture-coordinate attribute but the fill has no texture; when the fill has a
texture but the mesh lacks the texture-coordinate attribute; and, with a
texture set, unless exactly one of the 2D-texture and external-texture
shader-variant flags is set. -/
theorem verify_texture_consistency (d : ProgramDescription) (g : Glop) :
    (g.fill.texture.texture = none →
      g.mesh.vertices.attribFlags.textureCoord = true →
      verify d g = .error .verifyTexture)
    ∧ (g.fill.texture.texture.isSome = true →
      g.mesh.vertices.attribFlags.textureCoord = false →
      verify d g = .error .verifyTexture)
    ∧ (g.fill.texture.texture.isSome = true →
      d.hasTexture = d.hasExternalTexture →
      verify d g = .error .verifyTexture) := by
  refine ⟨?_, ?_, ?_⟩
  · intro h1 h2
    simp [verify, h1, h2]
  · intro h1 h2
    simp [verify, h1, h2]
  · intro h1 h2
    cases hT : d.hasTexture <;> simp [verify, h1, hT, ← h2, hT]

/-- C6: when a shader is present and the blend mode is not clear, setFill
stores fill color (1, 1, 1, effective alpha) with effective alpha =
(alpha channel / 255) * alpha multiplier; the stored RGB channels do not
depend on the input color. -/
theorem setFill_shader_forces_white_rgb (b : Builder) (color : Nat)
    (alphaScale : ℚ) (mode : Nat) (modeUsage : ModeOrderSwap) (sh : Shader)
    (colorFilter : Option ColorFilter) (b2 : Builder)
    (hm : mode ≠ kClear_Mode)
    (h : b.setFill color alphaScale mode modeUsage (some sh) colorFilter
      = .ok b2) :
    b2.glop.fill.color
      = ⟨1, 1, 1, ((SkColorGetA color : ℚ) / 255) * alphaScale⟩ := by
  have hc := (setFill_ok_parts b color alphaScale mode modeUsage (some sh)
    colorFilter b2 h).1
  rw [hc]
  simp [resolveFillColor, hm]

def shaderSample : Builder :=
  (sampleBuilder.setFill 0xFF336699 (1/2) kSrcOver_Mode .noSwap
    (some ⟨true, false, true, 5⟩) none).toOption.getD sampleBuilder

theorem setFill_shader_forces_white_rgb_witness :
    shaderSample.glop.fill.color = ⟨1, 1, 1, 1/2⟩ := by
  have h := setFill_shader_forces_white_rgb sampleBuilder 0xFF336699 (1/2)
    kSrcOver_Mode .noSwap ⟨true, false, true, 5⟩ none shaderSample
    (by decide) (by rfl)
  have hA : ((4281558681 : Nat) >>> 24 &&& 255) = 255 := by decide
  rw [h]
  norm_num [SkColorGetA, hA]

/-- C4 (amended): with no shader and a non-clear mode, provided the alpha
multiplier lies in [0,1], setFill stores alpha = effective alpha =
(alpha channel / 255) * multiplier and each RGB channel =
(channel / 255) * effective alpha, all four channels landing in [0,1].
(The claim's extra division of effective alpha by 255 does not match the
code; see the counterexample.) -/
theorem setFill_premultiplied_color (b : Builder) (color : Nat) (s : ℚ)
    (mode : Nat) (modeUsage : ModeOrderSwap) (colorFilter : Option ColorFilter)
    (b2 : Builder) (hm : mode ≠ kClear_Mode) (hs0 : 0 ≤ s) (hs1 : s ≤ 1)
    (h : b.setFill color s mode modeUsage none colorFilter = .ok b2) :
    b2.glop.fill.color
      = ⟨((SkColorGetR color : ℚ) / 255) * (((SkColorGetA color : ℚ) / 255) * s),
         ((SkColorGetG color : ℚ) / 255) * (((SkColorGetA color : ℚ) / 255) * s),
         ((SkColorGetB color : ℚ) / 255) * (((SkColorGetA color : ℚ) / 255) * s),
         ((SkColorGetA color : ℚ) / 255) * s⟩
    ∧ (0 ≤ b2.glop.fill.color.r ∧ b2.glop.fill.color.r ≤ 1)
    ∧ (0 ≤ b2.glop.fill.color.g ∧ b2.glop.fill.color.g ≤ 1)
    ∧ (0 ≤ b2.glop.fill.color.b ∧ b2.glop.fill.color.b ≤ 1)
    ∧ (0 ≤ b2.glop.fill.color.a ∧ b2.glop.fill.color.a ≤ 1) := by
  have hc := (setFill_ok_parts b color s mode modeUsage none colorFilter b2 h).1
  have hrc : resolveFillColor color s mode none =
      ⟨(((SkColorGetA color : ℚ) / 255) * s) / 255 * (SkColorGetR color : ℚ),
       (((SkColorGetA color : ℚ) / 255) * s) / 255 * (SkColorGetG color : ℚ),
       (((SkColorGetA color : ℚ) / 255) * s) / 255 * (SkColorGetB color : ℚ),
       ((SkColorGetA color : ℚ) / 255) * s⟩ := by
    simp [resolveFillColor, hm]
  rw [hc, hrc]
  have hA : (SkColorGetA color : ℚ) ≤ 255 := by
    have := Nat.and_le_right (n := color >>> 24) (m := 0xFF)
    unfold SkColorGetA
    exact_mod_cast this
  have hR : (SkColorGetR color : ℚ) ≤ 255 := by
    have := Nat.and_le_right (n := color >>> 16) (m := 0xFF)
    unfold SkColorGetR
    exact_mod_cast this
  have hG : (SkColorGetG color : ℚ) ≤ 255 := by
    have := Nat.and_le_right (n := color >>> 8) (m := 0xFF)
    unfold SkColorGetG
    exact_mod_cast this
  have hB : (SkColorGetB color : ℚ) ≤ 255 := by
    have := Nat.and_le_right (n := color) (m := 0xFF)
    unfold SkColorGetB
    exact_mod_cast this
  have hA0 : (0 : ℚ) ≤ (SkColorGetA color : ℚ) := by positivity
  have hR0 : (0 : ℚ) ≤ (SkColorGetR color : ℚ) := by positivity
  have hG0 : (0 : ℚ) ≤ (SkColorGetG color : ℚ) := by positivity
  have hB0 : (0 : ℚ) ≤ (SkColorGetB color : ℚ) := by positivity
  have halpha0 : (0 : ℚ) ≤ ((SkColorGetA color : ℚ) / 255) * s :=
    mul_nonneg (div_nonneg hA0 (by norm_num)) hs0
  have halpha1 : ((SkColorGetA color : ℚ) / 255) * s ≤ 1 := by
    have hd : (SkColorGetA color : ℚ) / 255 ≤ 1 := by
      rw [div_le_one (by norm_num)]
      exact hA
    calc ((SkColorGetA color : ℚ) / 255) * s ≤ 1 * 1 :=
          mul_le_mul hd hs1 hs0 (by norm_num)
      _ = 1 := by norm_num
  have key : ∀ X : ℚ, 0 ≤ X → X ≤ 255 →
      0 ≤ (((SkColorGetA color : ℚ) / 255) * s) / 255 * X
      ∧ (((SkColorGetA color : ℚ) / 255) * s) / 255 * X ≤ 1 := by
    intro X hX0 hX1
    have h1 : (((SkColorGetA color : ℚ) / 255) * s) * X ≤ 1 * 255 :=
      mul_le_mul halpha1 hX1 hX0 zero_le_one
    refine ⟨mul_nonneg (div_nonneg halpha0 (by norm_num)) hX0, ?_⟩
    have h2 : (((SkColorGetA color : ℚ) / 255) * s) / 255 * X
        = ((((SkColorGetA color : ℚ) / 255) * s) * X) / 255 := by ring
    rw [h2]
    linarith
  refine ⟨?_, key _ hR0 hR, key _ hG0 hG, key _ hB0 hB, halpha0, halpha1⟩
  rw [FloatColor.mk.injEq]
  exact ⟨by ring, by ring, by ring, rfl⟩

def whiteSample : Builder :=
  (sampleBuilder.setFill 0xFFFFFFFF 1 kSrcOver_Mode .noSwap none
    none).toOption.getD sampleBuilder

def doubleAlphaSample : Builder :=
  (sampleBuilder.setFill 0xFFFFFFFF 2 kSrcOver_Mode .noSwap none
    none).toOption.getD sampleBuilder

theorem setFill_premultiplied_color_witness :
    whiteSample.glop.fill.color = ⟨1, 1, 1, 1⟩ := by
  have h := (setFill_premultiplied_color sampleBuilder 0xFFFFFFFF 1
    kSrcOver_Mode .noSwap none whiteSample (by decide) (by norm_num)
    (by norm_num) (by rfl)).1
  have e24 : ((4294967295 : Nat) >>> 24 &&& 255) = 255 := by decide
  have e16 : ((4294967295 : Nat) >>> 16 &&& 255) = 255 := by decide
  have e8 : ((4294967295 : Nat) >>> 8 &&& 255) = 255 := by decide
  have e0 : ((4294967295 : Nat) &&& 255) = 255 := by decide
  rw [h]
  norm_num [SkColorGetA, SkColorGetR, SkColorGetG, SkColorGetB, e24, e16, e8, e0]

/-- C4 counterexample: at input color 0xFFFFFFFF (all channels 255), alpha
multiplier 1, no shader, source-over, the code stores red channel 1, whereas
the claim's formula (channel / 255) * (effective alpha / 255) predicts 1/255;
moreover with multiplier 2 the stored alpha channel is 2, outside [0,1], so
the unrestricted in-range part also fails. -/
theorem setFill_rgb_formula_counterexample :
    whiteSample.glop.fill.color.r = 1
    ∧ ((SkColorGetR 0xFFFFFFFF : ℚ) / 255)
        * (((SkColorGetA 0xFFFFFFFF : ℚ) / 255 * 1) / 255) = 1 / 255
    ∧ (1 : ℚ) ≠ 1 / 255
    ∧ doubleAlphaSample.glop.fill.color.a = 2
    ∧ ¬ (doubleAlphaSample.glop.fill.color.a ≤ 1) := by
  have e24 : ((4294967295 : Nat) >>> 24 &&& 255) = 255 := by decide
  have e16 : ((4294967295 : Nat) >>> 16 &&& 255) = 255 := by decide
  have hcw : whiteSample.glop.fill.color
      = resolveFillColor 0xFFFFFFFF 1 kSrcOver_Mode none := rfl
  have hcd : doubleAlphaSample.glop.fill.color
      = resolveFillColor 0xFFFFFFFF 2 kSrcOver_Mode none := rfl
  have hw : whiteSample.glop.fill.color.r = 1 := by
    rw [hcw]
    norm_num [resolveFillColor, kSrcOver_Mode, kClear_Mode, SkColorGetA,
      SkColorGetR, e24, e16]
  have hd : doubleAlphaSample.glop.fill.color.a = 2 := by
    rw [hcd]
    norm_num [resolveFillColor, kSrcOver_Mode, kClear_Mode, SkColorGetA, e24]
  refine ⟨hw, ?_, by norm_num, hd, ?_⟩
  · norm_num [SkColorGetR, SkColorGetA, e24, e16]
  · rw [hd]
    norm_num

/-- Helper: resolving opaque white at multiplier 1 without shader under
source-over yields the unit fill color. -/
theorem resolveFillColor_white :
    resolveFillColor 0xFFFFFFFF 1 kSrcOver_Mode none = ⟨1, 1, 1, 1⟩ := by
  have e24 : ((4294967295 : Nat) >>> 24 &&& 255) = 255 := by decide
  have e16 : ((4294967295 : Nat) >>> 16 &&& 255) = 255 := by decide
  have e8 : ((4294967295 : Nat) >>> 8 &&& 255) = 255 := by decide
  have e0 : ((4294967295 : Nat) &&& 255) = 255 := by decide
  norm_num [resolveFillColor, kSrcOver_Mode, kClear_Mode, SkColorGetA,
    SkColorGetR, SkColorGetG, SkColorGetB, e24, e16, e8, e0]

/-- C5: for opaque white input, multiplier 1, no shader, source-over, and no
other blending trigger (no per-vertex alpha, no blended texture, no round-rect
clip, no blended color filter), setFill stores fill color (1,1,1,1) and blend
factors (GL_ZERO, GL_ZERO). -/
theorem setFill_opaque_white_srcover (b : Builder) (modeUsage : ModeOrderSwap)
    (colorFilter : Option ColorFilter) (b2 : Builder)
    (halpha : b.glop.mesh.vertices.attribFlags.alpha = false)
    (htex : fillTextureBlends b.glop = false)
    (hclip : b.glop.roundRectClipState = none)
    (hcf : PaintUtils.isBlendedColorFilter colorFilter = false)
    (h : b.setFill 0xFFFFFFFF 1 kSrcOver_Mode modeUsage none colorFilter
      = .ok b2) :
    b2.glop.fill.color = ⟨1, 1, 1, 1⟩
    ∧ b2.glop.blend = ⟨GL_ZERO, GL_ZERO⟩ := by
  obtain ⟨hcol, hblend, -⟩ := setFill_ok_parts b 0xFFFFFFFF 1 kSrcOver_Mode
    modeUsage none colorFilter b2 h
  refine ⟨by rw [hcol, resolveFillColor_white], ?_⟩
  rw [hblend, resolveFillColor_white]
  simp [resolveBlend, halpha, htex, hclip, hcf, PaintUtils.isBlendedShader,
    kSrcOver_Mode]

theorem setFill_opaque_white_srcover_witness :
    whiteSample.glop.fill.color = ⟨1, 1, 1, 1⟩
    ∧ whiteSample.glop.blend = ⟨GL_ZERO, GL_ZERO⟩ :=
  setFill_opaque_white_srcover sampleBuilder .noSwap none whiteSample rfl rfl
    rfl rfl (by rfl)

/-- C7 (amended): for a mode beyond the directly GPU-mappable set (mode above
Screen), when the runtime lacks framebuffer fetch, setFill stores the
source-over lookup-table factors for the same swap flag — which equal what
setFill stores for plain source-over with the same swap flag whenever that
source-over call itself requires blending (e.g. effective alpha below 1);
when framebuffer fetch is supported, the factors stay at no-blending and the
mode and swap flag are recorded in the shader-variant descriptor. -/
theorem setFill_blend_fallback (b : Builder) (color : Nat) (s : ℚ) (mode : Nat)
    (modeUsage : ModeOrderSwap) (shader : Option Shader)
    (colorFilter : Option ColorFilter) (b2 b3 : Builder)
    (hmode : kScreen_Mode < mode) :
    (b.caches.hasFramebufferFetch = false →
      b.setFill color s mode modeUsage shader colorFilter = .ok b2 →
      b2.glop.blend = ⟨(Blend.getFactors kSrcOver_Mode modeUsage).1,
        (Blend.getFactors kSrcOver_Mode modeUsage).2⟩)
    ∧ (b.caches.hasFramebufferFetch = false →
      ((SkColorGetA color : ℚ) / 255) * s < 1 →
      b.setFill color s mode modeUsage shader colorFilter = .ok b2 →
      b.setFill color s kSrcOver_Mode modeUsage shader colorFilter = .ok b3 →
      b2.glop.blend = b3.glop.blend)
    ∧ (b.caches.hasFramebufferFetch = true →
      b.setFill color s mode modeUsage shader colorFilter = .ok b2 →
      b2.glop.blend = ⟨GL_ZERO, GL_ZERO⟩
      ∧ b2.description.framebufferMode = mode
      ∧ b2.description.swapSrcDst = decide (modeUsage = ModeOrderSwap.swap)) := by
  have hmodeNe : mode ≠ kSrcOver_Mode := by
    unfold kScreen_Mode at hmode
    unfold kSrcOver_Mode
    omega
  have hmodeNeClear : mode ≠ kClear_Mode := by
    unfold kScreen_Mode at hmode
    unfold kClear_Mode
    omega
  have hmodeGt : ¬ (mode ≤ kScreen_Mode) := by omega
  refine ⟨?_, ?_, ?_⟩
  · intro hcaps h
    have hblend := (setFill_ok_parts b color s mode modeUsage shader
      colorFilter b2 h).2.1
    rw [hblend]
    simp [resolveBlend, hmodeNe, hmodeGt, hcaps]
  · intro hcaps haint h hok3
    have hne3 : mode ≠ 3 := by
      unfold kScreen_Mode at hmode
      omega
    have h14 : ¬ (mode ≤ 14) := by
      unfold kScreen_Mode at hmode
      omega
    have hblend := (setFill_ok_parts b color s mode modeUsage shader
      colorFilter b2 h).2.1
    have hblend3 := (setFill_ok_parts b color s kSrcOver_Mode modeUsage shader
      colorFilter b3 hok3).2.1
    have ha2 : (resolveFillColor color s 3 shader).a
        = ((SkColorGetA color : ℚ) / 255) * s := by
      rcases shader with _ | sh <;>
        simp [resolveFillColor, kClear_Mode]
    rw [hblend, hblend3]
    simp [resolveBlend, hne3, h14, hcaps, ha2, haint, kSrcOver_Mode,
      kScreen_Mode]
  · intro hcaps h
    obtain ⟨-, hblend, hfb, hswap⟩ := setFill_ok_parts b color s mode modeUsage
      shader colorFilter b2 h
    rw [hblend, hfb, hswap]
    refine ⟨?_, ?_, ?_⟩ <;>
      simp [resolveBlend, hmodeNe, hmodeGt, hcaps]

def fallbackSample : Builder :=
  (sampleBuilder.setFill 0xFFFFFFFF 1 15 .noSwap none none).toOption.getD
    sampleBuilder

def halfFallbackSample : Builder :=
  (sampleBuilder.setFill 0xFFFFFFFF (1/2) 15 .noSwap none none).toOption.getD
    sampleBuilder

def halfSrcOverSample : Builder :=
  (sampleBuilder.setFill 0xFFFFFFFF (1/2) kSrcOver_Mode .noSwap none
    none).toOption.getD sampleBuilder

/-- The sample builder on a runtime supporting framebuffer fetch. -/
def fetchBuilder : Builder :=
  { sampleBuilder with caches := ⟨true, 0, fun _ => 0⟩ }

def fetchSample : Builder :=
  (fetchBuilder.setFill 0xFFFFFFFF 1 15 .swap none none).toOption.getD
    fetchBuilder

/-- C7 witness: concrete fallback (mode 15 = first shader-only mode, no
framebuffer fetch) stores the source-over table factors; with a translucent
input both the fallback and the direct source-over call store that same pair;
and on a fetch-capable runtime the mode and swap flag are recorded with
factors left at no-blending. -/
theorem setFill_blend_fallback_witness :
    fallbackSample.glop.blend
      = ⟨(Blend.getFactors kSrcOver_Mode .noSwap).1,
         (Blend.getFactors kSrcOver_Mode .noSwap).2⟩
    ∧ halfFallbackSample.glop.blend = halfSrcOverSample.glop.blend
    ∧ (fetchSample.glop.blend = ⟨GL_ZERO, GL_ZERO⟩
      ∧ fetchSample.description.framebufferMode = 15
      ∧ fetchSample.description.swapSrcDst
        = decide (ModeOrderSwap.swap = ModeOrderSwap.swap)) := by
  refine ⟨?_, ?_, ?_⟩
  · exact (setFill_blend_fallback sampleBuilder 0xFFFFFFFF 1 15 .noSwap none
      none fallbackSample fallbackSample (by decide)).1 rfl (by rfl)
  · refine (setFill_blend_fallback sampleBuilder 0xFFFFFFFF (1/2) 15 .noSwap
      none none halfFallbackSample halfSrcOverSample (by decide)).2.1 rfl ?_
      (by rfl) (by rfl)
    have e24 : ((4294967295 : Nat) >>> 24 &&& 255) = 255 := by decide
    norm_num [SkColorGetA, e24]
  · exact (setFill_blend_fallback fetchBuilder 0xFFFFFFFF 1 15 .swap none
      none fetchSample fetchSample (by decide)).2.2 rfl (by rfl)

/-- C7 counterexample: with opaque white input (no blending trigger for
source-over itself) and no framebuffer fetch, shader-only mode 15 stores the
source-over table factors (GL_ONE, GL_ONE_MINUS_SRC_ALPHA), while setFill for
plain source-over with the same swap flag and same inputs stores the
no-blending pair (GL_ZERO, GL_ZERO): the two calls do not agree as the claim
states. -/
theorem setFill_blend_fallback_counterexample :
    fallbackSample.glop.blend = ⟨GL_ONE, GL_ONE_MINUS_SRC_ALPHA⟩
    ∧ whiteSample.glop.blend = ⟨GL_ZERO, GL_ZERO⟩
    ∧ fallbackSample.glop.blend ≠ whiteSample.glop.blend := by
  have hf : fallbackSample.glop.blend
      = (resolveBlend sampleBuilder (resolveFillColor 0xFFFFFFFF 1 15 none)
          15 .noSwap none none).1 := rfl
  have hw : whiteSample.glop.blend
      = (resolveBlend sampleBuilder
          (resolveFillColor 0xFFFFFFFF 1 kSrcOver_Mode none) kSrcOver_Mode
          .noSwap none none).1 := rfl
  have hf2 : fallbackSample.glop.blend = ⟨GL_ONE, GL_ONE_MINUS_SRC_ALPHA⟩ := by
    rw [hf]
    norm_num [resolveBlend, kSrcOver_Mode, kScreen_Mode, Blend.getFactors,
      sampleBuilder, sampleCaches, Bool.or_true]
  have hw2 : whiteSample.glop.blend = ⟨GL_ZERO, GL_ZERO⟩ := by
    rw [hw, resolveFillColor_white]
    simp [resolveBlend, sampleBuilder, sampleGlop, sampleMesh, sampleFill,
      fillTextureBlends, noFillTexture, PaintUtils.isBlendedShader,
      PaintUtils.isBlendedColorFilter, kSrcOver_Mode, VertexAttribFlags.kNone]
  refine ⟨hf2, hw2, ?_⟩
  rw [hf2, hw2]
  simp [GL_ONE, GL_ZERO]

/-- C8: a color filter presenting as a 20-element row-major matrix is repacked
into a 4x4 matrix equal to the input with every 5th element of each row
removed, plus a 4-element offset vector of the removed elements (indices 4, 9,
14, 19) each divided by 255. -/
theorem setFill_color_matrix_repack (b : Builder) (color : Nat) (s : ℚ)
    (mode : Nat) (modeUsage : ModeOrderSwap) (shader : Option Shader)
    (blended : Bool) (m : Fin 20 → ℚ) (b2 : Builder)
    (h : b.setFill color s mode modeUsage shader
      (some ⟨blended, .colorMatrix m⟩) = .ok b2) :
    b2.glop.fill.filterMode = .kColorMatrix
    ∧ (∀ r c : Fin 4, b2.glop.fill.filterMatrix.matrix
        ⟨4 * (r : Nat) + (c : Nat), by omega⟩ = m ⟨5 * (r : Nat) + (c : Nat), by omega⟩)
    ∧ (∀ j : Fin 4, b2.glop.fill.filterMatrix.vector j
        = m ⟨5 * (j : Nat) + 4, by omega⟩ / 255) := by
  simp only [Builder.setFill, Except.ok.injEq] at h
  subst h
  refine ⟨rfl, ?_, fun j => rfl⟩
  intro r c
  show repackColorMatrix m _ = _
  fin_cases r <;> fin_cases c <;> simp [repackColorMatrix]

def matrixSample : Builder :=
  (sampleBuilder.setFill 0 1 kSrcOver_Mode .noSwap none
    (some ⟨false, .colorMatrix (fun i => (i : ℚ))⟩)).toOption.getD sampleBuilder

theorem setFill_color_matrix_repack_witness :
    matrixSample.glop.fill.filterMode = .kColorMatrix
    ∧ matrixSample.glop.fill.filterMatrix.matrix ⟨6, by omega⟩ = 7
    ∧ matrixSample.glop.fill.filterMatrix.vector ⟨2, by omega⟩ = 14 / 255 := by
  have h := setFill_color_matrix_repack sampleBuilder 0 1 kSrcOver_Mode .noSwap
    none false (fun i => (i : ℚ)) matrixSample (by rfl)
  refine ⟨h.1, ?_, ?_⟩
  · have h2 := h.2.1 ⟨1, by omega⟩ ⟨2, by omega⟩
    simpa using h2
  · have h3 := h.2.2 ⟨2, by omega⟩
    simpa using h3

/-- Round-half-up as used by pixel snapping: floor(x + 0.5). -/
def roundHalfUp (x : ℚ) : ℤ := Rat.floor (x + 1/2)

theorem ratFloor_eq_intFloor (q : ℚ) : Rat.floor q = ⌊q⌋ := rfl

/-- Any value is within 0.5 of its round-half-up integer. -/
theorem abs_sub_roundHalfUp_le (x : ℚ) :
    |x - (roundHalfUp x : ℚ)| ≤ 1/2 := by
  have hb : (roundHalfUp x : ℚ) = ((⌊x + 1/2⌋ : ℤ) : ℚ) := by
    rw [roundHalfUp, ratFloor_eq_intFloor]
  rw [hb, abs_le]
  have h1 := Int.floor_le (x + 1/2)
  have h2 := Int.lt_floor_add_one (x + 1/2)
  constructor <;> [linarith; linarith]

/-- C9: for both snap model-view operations, a canvas matrix that is not a
pure translation leaves the caller's translation and the fill texture filter
untouched; a pure-translation canvas snaps so that the resulting translation
plus the canvas translation equals the round-half-up of the requested combined
translation — in particular it is within 0.5 of that nearest integer — and
downgrades the texture filter to nearest-neighbor. -/
theorem modelview_snap_rounding (b : Builder) (destination source : Rect)
    (ox oy : ℚ) (b2 b3 : Builder) :
    (b.glop.transform.canvas.isPureTranslate = false →
      b.setModelViewMapUnitToRectSnap destination = .ok b2 →
      b2.glop.transform.modelView.tx = destination.left
      ∧ b2.glop.transform.modelView.ty = destination.top
      ∧ b2.glop.fill.texture = b.glop.fill.texture)
    ∧ (b.glop.transform.canvas.isPureTranslate = true →
      b.setModelViewMapUnitToRectSnap destination = .ok b2 →
      b2.glop.transform.modelView.tx + b.glop.transform.canvas.getTranslateX
        = ((roundHalfUp (destination.left
            + b.glop.transform.canvas.getTranslateX) : ℤ) : ℚ)
      ∧ b2.glop.transform.modelView.ty + b.glop.transform.canvas.getTranslateY
        = ((roundHalfUp (destination.top
            + b.glop.transform.canvas.getTranslateY) : ℤ) : ℚ)
      ∧ |(b2.glop.transform.modelView.tx
            + b.glop.transform.canvas.getTranslateX)
          - ((roundHalfUp (b2.glop.transform.modelView.tx
            + b.glop.transform.canvas.getTranslateX) : ℤ) : ℚ)| ≤ 1/2
      ∧ b2.glop.fill.texture.filter = GL_NEAREST)
    ∧ (b.glop.transform.canvas.isPureTranslate = false →
      b.setModelViewOffsetRectSnap ox oy source = .ok b3 →
      b3.glop.transform.modelView.tx = ox
      ∧ b3.glop.transform.modelView.ty = oy
      ∧ b3.glop.fill.texture = b.glop.fill.texture)
    ∧ (b.glop.transform.canvas.isPureTranslate = true →
      b.setModelViewOffsetRectSnap ox oy source = .ok b3 →
      b3.glop.transform.modelView.tx + b.glop.transform.canvas.getTranslateX
          + source.left
        = ((roundHalfUp (ox + b.glop.transform.canvas.getTranslateX
            + source.left) : ℤ) : ℚ)
      ∧ b3.glop.transform.modelView.ty + b.glop.transform.canvas.getTranslateY
          + source.top
        = ((roundHalfUp (oy + b.glop.transform.canvas.getTranslateY
            + source.top) : ℤ) : ℚ)
      ∧ |(b3.glop.transform.modelView.tx
            + b.glop.transform.canvas.getTranslateX)
          - ((roundHalfUp (b3.glop.transform.modelView.tx
            + b.glop.transform.canvas.getTranslateX) : ℤ) : ℚ)| ≤ 1/2
      ∧ b3.glop.fill.texture.filter = GL_NEAREST) := by
  refine ⟨?_, ?_, ?_, ?_⟩
  · intro hp h
    rcases hmv : b.stageFlags.modelView with _ | _ <;>
      rcases ht : b.stageFlags.transformStage with _ | _ <;>
        rcases hf : b.stageFlags.fill with _ | _ <;>
          simp only [Builder.setModelViewMapUnitToRectSnap, triggerStage,
            requireStages, StageFlags.get, StageFlags.set, List.all_cons,
            List.all_nil, hmv, ht, hf, hp, exceptOkBind, exceptErrorBind,
            Bool.and_self, Bool.and_true, Bool.true_and, Bool.and_false,
            Bool.false_and, Bool.false_eq_true, ite_true, ite_false,
            Except.ok.injEq, reduceCtorEq] at h
    subst h
    exact ⟨rfl, rfl, rfl⟩
  · intro hp h
    rcases hmv : b.stageFlags.modelView with _ | _ <;>
      rcases ht : b.stageFlags.transformStage with _ | _ <;>
        rcases hf : b.stageFlags.fill with _ | _ <;>
          simp only [Builder.setModelViewMapUnitToRectSnap, triggerStage,
            requireStages, StageFlags.get, StageFlags.set, List.all_cons,
            List.all_nil, hmv, ht, hf, hp, exceptOkBind, exceptErrorBind,
            Bool.and_self, Bool.and_true, Bool.true_and, Bool.and_false,
            Bool.false_and, Bool.false_eq_true, ite_true, ite_false,
            Except.ok.injEq, reduceCtorEq] at h
    subst h
    refine ⟨?_, ?_, ?_, rfl⟩
    · simp only [roundHalfUp, ratFloor_eq_intFloor, Matrix4.loadTranslate,
        Matrix4.scale]
      ring
    · simp only [roundHalfUp, ratFloor_eq_intFloor, Matrix4.loadTranslate,
        Matrix4.scale]
      ring
    · exact abs_sub_roundHalfUp_le _
  · intro hp h
    rcases hmv : b.stageFlags.modelView with _ | _ <;>
      rcases ht : b.stageFlags.transformStage with _ | _ <;>
        rcases hf : b.stageFlags.fill with _ | _ <;>
          simp only [Builder.setModelViewOffsetRectSnap, triggerStage,
            requireStages, StageFlags.get, StageFlags.set, List.all_cons,
            List.all_nil, hmv, ht, hf, hp, exceptOkBind, exceptErrorBind,
            Bool.and_self, Bool.and_true, Bool.true_and, Bool.and_false,
            Bool.false_and, Bool.false_eq_true, ite_true, ite_false,
            Except.ok.injEq, reduceCtorEq] at h
    subst h
    exact ⟨rfl, rfl, rfl⟩
  · intro hp h
    rcases hmv : b.stageFlags.modelView with _ | _ <;>
      rcases ht : b.stageFlags.transformStage with _ | _ <;>
        rcases hf : b.stageFlags.fill with _ | _ <;>
          simp only [Builder.setModelViewOffsetRectSnap, triggerStage,
            requireStages, StageFlags.get, StageFlags.set, List.all_cons,
            List.all_nil, hmv, ht, hf, hp, exceptOkBind, exceptErrorBind,
            Bool.and_self, Bool.and_true, Bool.true_and, Bool.and_false,
            Bool.false_and, Bool.false_eq_true, ite_true, ite_false,
            Except.ok.injEq, reduceCtorEq] at h
    subst h
    refine ⟨?_, ?_, ?_, rfl⟩
    · simp only [roundHalfUp, ratFloor_eq_intFloor, Matrix4.loadTranslate]
      ring
    · simp only [roundHalfUp, ratFloor_eq_intFloor, Matrix4.loadTranslate]
      ring
    · exact abs_sub_roundHalfUp_le _

/-- Builder ready for a snap model-view stage, with a pure-translation canvas
at translation (1/3, 1/4). -/
def snapPureBuilder : Builder :=
  { sampleBuilder with
    stageFlags := ⟨true, true, true, false, false⟩
    glop := { sampleGlop with
      transform := { sampleTransform with canvas := ⟨true, 1/3, 1/4, 1, 1⟩ } } }

/-- Builder ready for a snap model-view stage whose canvas matrix is not a
pure translation. -/
def snapNonPureBuilder : Builder :=
  { sampleBuilder with
    stageFlags := ⟨true, true, true, false, false⟩
    glop := { sampleGlop with
      transform := { sampleTransform with canvas := ⟨false, 1/3, 1/4, 2, 2⟩ } } }

def snapMapPureSample : Builder :=
  (snapPureBuilder.setModelViewMapUnitToRectSnap ⟨10, 20, 50, 60⟩).toOption.getD
    snapPureBuilder

def snapMapNonPureSample : Builder :=
  (snapNonPureBuilder.setModelViewMapUnitToRectSnap
    ⟨10, 20, 50, 60⟩).toOption.getD snapNonPureBuilder

def snapOffsetPureSample : Builder :=
  (snapPureBuilder.setModelViewOffsetRectSnap (1/5) (2/5)
    ⟨10, 20, 50, 60⟩).toOption.getD snapPureBuilder

def snapOffsetNonPureSample : Builder :=
  (snapNonPureBuilder.setModelViewOffsetRectSnap (1/5) (2/5)
    ⟨10, 20, 50, 60⟩).toOption.getD snapNonPureBuilder

theorem modelview_snap_rounding_witness :
    (snapMapPureSample.glop.transform.modelView.tx + (1/3 : ℚ)
      = ((roundHalfUp ((10 : ℚ) + 1/3) : ℤ) : ℚ))
    ∧ snapMapPureSample.glop.fill.texture.filter = GL_NEAREST
    ∧ snapMapNonPureSample.glop.transform.modelView.tx = 10
    ∧ snapMapNonPureSample.glop.fill.texture
      = snapNonPureBuilder.glop.fill.texture
    ∧ (snapOffsetPureSample.glop.transform.modelView.tx + (1/3 : ℚ) + 10
      = ((roundHalfUp ((1/5 : ℚ) + 1/3 + 10) : ℤ) : ℚ))
    ∧ snapOffsetPureSample.glop.fill.texture.filter = GL_NEAREST
    ∧ snapOffsetNonPureSample.glop.transform.modelView.tx = 1/5 := by
  obtain ⟨-, h2, -, h4⟩ := modelview_snap_rounding snapPureBuilder
    ⟨10, 20, 50, 60⟩ ⟨10, 20, 50, 60⟩ (1/5) (2/5) snapMapPureSample
    snapOffsetPureSample
  obtain ⟨h1n, -, h3n, -⟩ := modelview_snap_rounding snapNonPureBuilder
    ⟨10, 20, 50, 60⟩ ⟨10, 20, 50, 60⟩ (1/5) (2/5) snapMapNonPureSample
    snapOffsetNonPureSample
  have h2r := h2 rfl (by rfl)
  have h4r := h4 rfl (by rfl)
  have h1r := h1n rfl (by rfl)
  have h3r := h3n rfl (by rfl)
  exact ⟨h2r.1, h2r.2.2.2, h1r.1, h1r.2.2, h4r.1, h4r.2.2.2, h3r.1⟩

/-- The non-mesh parts of the output descriptor coincide between two builder
states. -/
def nonMeshUnchanged (b2 b : Builder) : Prop :=
  b2.glop.fill = b.glop.fill
  ∧ b2.glop.blend = b.glop.blend
  ∧ b2.glop.transform = b.glop.transform
  ∧ b2.glop.bounds = b.glop.bounds
  ∧ b2.glop.roundRectClipState = b.glop.roundRectClipState

/-- C10: every mesh setter writes only the Mesh sub-record of the descriptor
(and, for the vertex-buffer mesh only, the shadow-interpolation flag of the
shader-variant descriptor); fill, blend, transform, bounds and clip are left
unchanged, as is the shader-variant descriptor for all other mesh setters. -/
theorem mesh_setters_touch_only_mesh (b : Builder) (ou : Option UvMapper)
    (uvs : Rect) (vd : Nat) (n : Int) (vb : VertexBuffer) (si : Bool)
    (patch : Patch) :
    (∀ b2, b.setMeshUnitQuad = .ok b2 →
      nonMeshUnchanged b2 b ∧ b2.description = b.description)
    ∧ (∀ b2, b.setMeshTexturedUnitQuad ou = .ok b2 →
      nonMeshUnchanged b2 b ∧ b2.description = b.description)
    ∧ (∀ b2, b.setMeshTexturedUvQuad ou uvs = .ok b2 →
      nonMeshUnchanged b2 b ∧ b2.description = b.description)
    ∧ (∀ b2, b.setMeshIndexedQuads vd n = .ok b2 →
      nonMeshUnchanged b2 b ∧ b2.description = b.description)
    ∧ (∀ b2, b.setMeshTexturedIndexedQuads vd n = .ok b2 →
      nonMeshUnchanged b2 b ∧ b2.description = b.description)
    ∧ (∀ b2, b.setMeshTexturedMesh vd n = .ok b2 →
      nonMeshUnchanged b2 b ∧ b2.description = b.description)
    ∧ (∀ b2, b.setMeshColoredTexturedMesh vd n = .ok b2 →
      nonMeshUnchanged b2 b ∧ b2.description = b.description)
    ∧ (∀ b2, b.setMeshVertexBuffer vb si = .ok b2 →
      nonMeshUnchanged b2 b
      ∧ b2.description = { b.description with useShadowAlphaInterp := si })
    ∧ (∀ b2, b.setMeshPatchQuads patch = .ok b2 →
      nonMeshUnchanged b2 b ∧ b2.description = b.description) := by
  refine ⟨?_, ?_, ?_, ?_, ?_, ?_, ?_, ?_, ?_⟩
  · intro b2 h
    rcases hm : b.stageFlags.mesh with _ | _ <;>
      simp only [Builder.setMeshUnitQuad, triggerStage, StageFlags.get,
        StageFlags.set, hm, exceptOkBind, exceptErrorBind, Bool.false_eq_true,
        ite_true, ite_false, Except.ok.injEq, reduceCtorEq] at h
    subst h
    exact ⟨⟨rfl, rfl, rfl, rfl, rfl⟩, rfl⟩
  · intro b2 h
    rcases ou with _ | m <;>
      rcases hm : b.stageFlags.mesh with _ | _ <;>
        simp only [Builder.setMeshTexturedUnitQuad,
          Builder.setMeshTexturedUvQuad, triggerStage, StageFlags.get,
          StageFlags.set, hm, exceptOkBind, exceptErrorBind, Option.isSome_none,
          Option.isSome_some, Bool.false_eq_true, ite_true, ite_false,
          Except.ok.injEq, reduceCtorEq] at h <;>
        subst h <;>
        exact ⟨⟨rfl, rfl, rfl, rfl, rfl⟩, rfl⟩
  · intro b2 h
    rcases ou with _ | m <;>
      rcases hm : b.stageFlags.mesh with _ | _ <;>
        simp only [Builder.setMeshTexturedUvQuad, triggerStage, StageFlags.get,
          StageFlags.set, hm, exceptOkBind, exceptErrorBind,
          Bool.false_eq_true, ite_true, ite_false, Except.ok.injEq,
          reduceCtorEq] at h <;>
        subst h <;>
        exact ⟨⟨rfl, rfl, rfl, rfl, rfl⟩, rfl⟩
  · intro b2 h
    rcases hm : b.stageFlags.mesh with _ | _ <;>
      simp only [Builder.setMeshIndexedQuads, triggerStage, StageFlags.get,
        StageFlags.set, hm, exceptOkBind, exceptErrorBind, Bool.false_eq_true,
        ite_true, ite_false, Except.ok.injEq, reduceCtorEq] at h
    subst h
    exact ⟨⟨rfl, rfl, rfl, rfl, rfl⟩, rfl⟩
  · intro b2 h
    rcases hm : b.stageFlags.mesh with _ | _ <;>
      simp only [Builder.setMeshTexturedIndexedQuads, triggerStage,
        StageFlags.get, StageFlags.set, hm, exceptOkBind, exceptErrorBind,
        Bool.false_eq_true, ite_true, ite_false, Except.ok.injEq,
        reduceCtorEq] at h
    subst h
    exact ⟨⟨rfl, rfl, rfl, rfl, rfl⟩, rfl⟩
  · intro b2 h
    rcases hm : b.stageFlags.mesh with _ | _ <;>
      simp only [Builder.setMeshTexturedMesh, triggerStage, StageFlags.get,
        StageFlags.set, hm, exceptOkBind, exceptErrorBind, Bool.false_eq_true,
        ite_true, ite_false, Except.ok.injEq, reduceCtorEq] at h
    subst h
    exact ⟨⟨rfl, rfl, rfl, rfl, rfl⟩, rfl⟩
  · intro b2 h
    rcases hm : b.stageFlags.mesh with _ | _ <;>
      simp only [Builder.setMeshColoredTexturedMesh, triggerStage,
        StageFlags.get, StageFlags.set, hm, exceptOkBind, exceptErrorBind,
        Bool.false_eq_true, ite_true, ite_false, Except.ok.injEq,
        reduceCtorEq] at h
    subst h
    exact ⟨⟨rfl, rfl, rfl, rfl, rfl⟩, rfl⟩
  · intro b2 h
    rcases hm : b.stageFlags.mesh with _ | _ <;>
      simp only [Builder.setMeshVertexBuffer, triggerStage, StageFlags.get,
        StageFlags.set, hm, exceptOkBind, exceptErrorBind, Bool.false_eq_true,
        ite_true, ite_false, Except.ok.injEq, reduceCtorEq] at h
    subst h
    exact ⟨⟨rfl, rfl, rfl, rfl, rfl⟩, rfl⟩
  · intro b2 h
    rcases hm : b.stageFlags.mesh with _ | _ <;>
      simp only [Builder.setMeshPatchQuads, triggerStage, StageFlags.get,
        StageFlags.set, hm, exceptOkBind, exceptErrorBind, Bool.false_eq_true,
        ite_true, ite_false, Except.ok.injEq, reduceCtorEq] at h
    subst h
    exact ⟨⟨rfl, rfl, rfl, rfl, rfl⟩, rfl⟩

def idMapper : UvMapper := ⟨fun r => r⟩

def vbSample : VertexBuffer := ⟨false, false, .null, .external 4, 6, 5⟩

def patchSample : Patch := ⟨4, 8, 18⟩

def mUnitSample : Builder :=
  sampleBuilder.setMeshUnitQuad.toOption.getD sampleBuilder

def mTexUnitSample : Builder :=
  (sampleBuilder.setMeshTexturedUnitQuad (some idMapper)).toOption.getD
    sampleBuilder

def mUvQuadSample : Builder :=
  (sampleBuilder.setMeshTexturedUvQuad (some idMapper)
    ⟨0, 0, 1, 1⟩).toOption.getD sampleBuilder

def mIndexedSample : Builder :=
  (sampleBuilder.setMeshIndexedQuads 3 2).toOption.getD sampleBuilder

def mTexIndexedSample : Builder :=
  (sampleBuilder.setMeshTexturedIndexedQuads 3 2).toOption.getD sampleBuilder

def mTexMeshSample : Builder :=
  (sampleBuilder.setMeshTexturedMesh 3 2).toOption.getD sampleBuilder

def mColorTexMeshSample : Builder :=
  (sampleBuilder.setMeshColoredTexturedMesh 3 2).toOption.getD sampleBuilder

def mVertexBufferSample : Builder :=
  (sampleBuilder.setMeshVertexBuffer vbSample true).toOption.getD sampleBuilder

def mPatchSample : Builder :=
  (sampleBuilder.setMeshPatchQuads patchSample).toOption.getD sampleBuilder

theorem mesh_setters_touch_only_mesh_witness :
    (nonMeshUnchanged mUnitSample sampleBuilder
      ∧ mUnitSample.description = sampleBuilder.description)
    ∧ (nonMeshUnchanged mTexUnitSample sampleBuilder
      ∧ mTexUnitSample.description = sampleBuilder.description)
    ∧ (nonMeshUnchanged mUvQuadSample sampleBuilder
      ∧ mUvQuadSample.description = sampleBuilder.description)
    ∧ (nonMeshUnchanged mIndexedSample sampleBuilder
      ∧ mIndexedSample.description = sampleBuilder.description)
    ∧ (nonMeshUnchanged mTexIndexedSample sampleBuilder
      ∧ mTexIndexedSample.description = sampleBuilder.description)
    ∧ (nonMeshUnchanged mTexMeshSample sampleBuilder
      ∧ mTexMeshSample.description = sampleBuilder.description)
    ∧ (nonMeshUnchanged mColorTexMeshSample sampleBuilder
      ∧ mColorTexMeshSample.description = sampleBuilder.description)
    ∧ (nonMeshUnchanged mVertexBufferSample sampleBuilder
      ∧ mVertexBufferSample.description
        = { sampleBuilder.description with useShadowAlphaInterp := true })
    ∧ (nonMeshUnchanged mPatchSample sampleBuilder
      ∧ mPatchSample.description = sampleBuilder.description) := by
  obtain ⟨h1, h2, h3, h4, h5, h6, h7, h8, h9⟩ := mesh_setters_touch_only_mesh
    sampleBuilder (some idMapper) ⟨0, 0, 1, 1⟩ 3 2 vbSample true patchSample
  exact ⟨h1 mUnitSample (by rfl), h2 mTexUnitSample (by rfl),
    h3 mUvQuadSample (by rfl), h4 mIndexedSample (by rfl),
    h5 mTexIndexedSample (by rfl), h6 mTexMeshSample (by rfl),
    h7 mColorTexMeshSample (by rfl), h8 mVertexBufferSample (by rfl),
    h9 mPatchSample (by rfl)⟩

/-- C1: re-entering any stage-setting operation is fatal; running any fill
setter before the mesh stage is fatal; running a snap model-view operation
before both the Transform and Fill stages is fatal; finalizing before all of
Mesh, Fill, Transform and ModelView is fatal, while the round-rect-clip stage
remaining unset does not make the finalization stage check fail. -/
theorem stage_protocol (b : Builder) (ou : Option UvMapper) (uvs dest src : Rect)
    (vd : Nat) (n : Int) (vb : VertexBuffer) (si : Bool) (patch : Patch)
    (tex : Texture) (tff : TextureFillFlags) (op : Option Paint) (paint : Paint)
    (s a : ℚ) (sc : Nat) (cf : Option ColorFilter) (mode : Nat)
    (mu : ModeOrderSwap) (layer : Layer) (ortho canvas : Matrix4) (fo : Bool)
    (ox oy : ℚ) (clip : Option Nat) :
    (b.stageFlags.mesh = true →
      b.setMeshUnitQuad = .error (.stageRepeated .mesh)
      ∧ b.setMeshTexturedUnitQuad ou = .error (.stageRepeated .mesh)
      ∧ b.setMeshTexturedUvQuad ou uvs = .error (.stageRepeated .mesh)
      ∧ b.setMeshIndexedQuads vd n = .error (.stageRepeated .mesh)
      ∧ b.setMeshTexturedIndexedQuads vd n = .error (.stageRepeated .mesh)
      ∧ b.setMeshTexturedMesh vd n = .error (.stageRepeated .mesh)
      ∧ b.setMeshColoredTexturedMesh vd n = .error (.stageRepeated .mesh)
      ∧ b.setMeshVertexBuffer vb si = .error (.stageRepeated .mesh)
      ∧ b.setMeshPatchQuads patch = .error (.stageRepeated .mesh))
    ∧ (b.stageFlags.fill = true →
      b.setFillTexturePaint tex tff op s = .error (.stageRepeated .fill)
      ∧ b.setFillPaint paint s = .error (.stageRepeated .fill)
      ∧ b.setFillPathTexturePaint tex paint s = .error (.stageRepeated .fill)
      ∧ b.setFillShadowTexturePaint tex sc paint s
        = .error (.stageRepeated .fill)
      ∧ b.setFillBlack = .error (.stageRepeated .fill)
      ∧ b.setFillClear = .error (.stageRepeated .fill)
      ∧ b.setFillLayer tex cf a mode mu = .error (.stageRepeated .fill)
      ∧ b.setFillTextureLayer layer a = .error (.stageRepeated .fill))
    ∧ (b.stageFlags.transformStage = true →
      b.setTransform ortho canvas fo = .error (.stageRepeated .transformStage))
    ∧ (b.stageFlags.modelView = true →
      b.setModelViewMapUnitToRect dest = .error (.stageRepeated .modelView)
      ∧ b.setModelViewMapUnitToRectSnap dest = .error (.stageRepeated .modelView)
      ∧ b.setModelViewOffsetRect ox oy src = .error (.stageRepeated .modelView)
      ∧ b.setModelViewOffsetRectSnap ox oy src
        = .error (.stageRepeated .modelView))
    ∧ (b.stageFlags.roundRectClip = true →
      b.setRoundRectClipState clip = .error (.stageRepeated .roundRectClip))
    ∧ (b.stageFlags.fill = false → b.stageFlags.mesh = false →
      b.setFillTexturePaint tex tff op s = .error .stageMissing
      ∧ b.setFillPaint paint s = .error .stageMissing
      ∧ b.setFillPathTexturePaint tex paint s = .error .stageMissing
      ∧ b.setFillShadowTexturePaint tex sc paint s = .error .stageMissing
      ∧ b.setFillBlack = .error .stageMissing
      ∧ b.setFillClear = .error .stageMissing
      ∧ b.setFillLayer tex cf a mode mu = .error .stageMissing
      ∧ b.setFillTextureLayer layer a = .error .stageMissing)
    ∧ (b.stageFlags.modelView = false →
      (b.stageFlags.transformStage = false ∨ b.stageFlags.fill = false) →
      b.setModelViewMapUnitToRectSnap dest = .error .stageMissing
      ∧ b.setModelViewOffsetRectSnap ox oy src = .error .stageMissing)
    ∧ (b.stageFlags.mesh = false → b.build = .error .stageMissing)
    ∧ (b.stageFlags.fill = false → b.build = .error .stageMissing)
    ∧ (b.stageFlags.transformStage = false → b.build = .error .stageMissing)
    ∧ (b.stageFlags.modelView = false → b.build = .error .stageMissing)
    ∧ (b.stageFlags.mesh = true → b.stageFlags.fill = true →
      b.stageFlags.transformStage = true → b.stageFlags.modelView = true →
      requireStages kAllStages b = .ok b) := by
  refine ⟨?_, ?_, ?_, ?_, ?_, ?_, ?_, ?_, ?_, ?_, ?_, ?_⟩
  · intro hm
    refine ⟨?_, ?_, ?_, ?_, ?_, ?_, ?_, ?_, ?_⟩ <;>
      first
      | (rcases ou with _ | m <;>
          simp [Builder.setMeshTexturedUnitQuad, Builder.setMeshTexturedUvQuad,
            triggerStage, StageFlags.get, hm, exceptErrorBind])
      | simp [Builder.setMeshUnitQuad, Builder.setMeshIndexedQuads,
          Builder.setMeshTexturedIndexedQuads, Builder.setMeshTexturedMesh,
          Builder.setMeshColoredTexturedMesh, Builder.setMeshVertexBuffer,
          Builder.setMeshPatchQuads, triggerStage, StageFlags.get, hm,
          exceptErrorBind]
  · intro hf
    refine ⟨?_, ?_, ?_, ?_, ?_, ?_, ?_, ?_⟩ <;>
      simp [Builder.setFillTexturePaint, Builder.setFillPaint,
        Builder.setFillPathTexturePaint, Builder.setFillShadowTexturePaint,
        Builder.setFillBlack, Builder.setFillClear, Builder.setFillLayer,
        Builder.setFillTextureLayer, triggerStage, StageFlags.get, hf,
        exceptErrorBind]
  · intro ht
    simp [Builder.setTransform, triggerStage, StageFlags.get, ht,
      exceptErrorBind]
  · intro hmv
    refine ⟨?_, ?_, ?_, ?_⟩ <;>
      simp [Builder.setModelViewMapUnitToRect,
        Builder.setModelViewMapUnitToRectSnap, Builder.setModelViewOffsetRect,
        Builder.setModelViewOffsetRectSnap, triggerStage, StageFlags.get, hmv,
        exceptErrorBind]
  · intro hc
    simp [Builder.setRoundRectClipState, triggerStage, StageFlags.get, hc,
      exceptErrorBind]
  · intro hf hm
    refine ⟨?_, ?_, ?_, ?_, ?_, ?_, ?_, ?_⟩ <;>
      simp [Builder.setFillTexturePaint, Builder.setFillPaint,
        Builder.setFillPathTexturePaint, Builder.setFillShadowTexturePaint,
        Builder.setFillBlack, Builder.setFillClear, Builder.setFillLayer,
        Builder.setFillTextureLayer, triggerStage, requireStages,
        StageFlags.get, StageFlags.set, hf, hm, exceptOkBind, exceptErrorBind]
  · intro hmv hd
    rcases hd with ht | hf
    · refine ⟨?_, ?_⟩ <;>
        simp [Builder.setModelViewMapUnitToRectSnap,
          Builder.setModelViewOffsetRectSnap, triggerStage, requireStages,
          StageFlags.get, StageFlags.set, hmv, ht, exceptOkBind,
          exceptErrorBind]
    · refine ⟨?_, ?_⟩ <;>
        simp [Builder.setModelViewMapUnitToRectSnap,
          Builder.setModelViewOffsetRectSnap, triggerStage, requireStages,
          StageFlags.get, StageFlags.set, hmv, hf, exceptOkBind,
          exceptErrorBind]
  · intro hm
    simp [Builder.build, requireStages, kAllStages, StageFlags.get, hm,
      exceptErrorBind]
  · intro hf
    simp [Builder.build, requireStages, kAllStages, StageFlags.get, hf,
      exceptErrorBind]
  · intro ht
    simp [Builder.build, requireStages, kAllStages, StageFlags.get, ht,
      exceptErrorBind]
  · intro hmv
    simp [Builder.build, requireStages, kAllStages, StageFlags.get, hmv,
      exceptErrorBind]
  · intro h1 h2 h3 h4
    simp [requireStages, kAllStages, StageFlags.get, h1, h2, h3, h4]

def paintW : Paint := ⟨0xFF112233, none, none, none, true⟩

def layerW : Layer := ⟨⟨false⟩, GL_TEXTURE_2D, 3, kSrcOver_Mode, none⟩

/-- Builder missing only the ModelView stage. -/
def bNoMv : Builder :=
  { sampleBuilder with stageFlags := ⟨true, true, true, false, true⟩ }

theorem stage_protocol_witness :
    (sampleBuilderAll.setMeshUnitQuad = .error (.stageRepeated .mesh)
      ∧ sampleBuilderAll.setMeshTexturedUnitQuad none
        = .error (.stageRepeated .mesh)
      ∧ sampleBuilderAll.setMeshTexturedUvQuad none ⟨0, 0, 1, 1⟩
        = .error (.stageRepeated .mesh)
      ∧ sampleBuilderAll.setMeshIndexedQuads 3 2 = .error (.stageRepeated .mesh)
      ∧ sampleBuilderAll.setMeshTexturedIndexedQuads 3 2
        = .error (.stageRepeated .mesh)
      ∧ sampleBuilderAll.setMeshTexturedMesh 3 2 = .error (.stageRepeated .mesh)
      ∧ sampleBuilderAll.setMeshColoredTexturedMesh 3 2
        = .error (.stageRepeated .mesh)
      ∧ sampleBuilderAll.setMeshVertexBuffer vbSample true
        = .error (.stageRepeated .mesh)
      ∧ sampleBuilderAll.setMeshPatchQuads patchSample
        = .error (.stageRepeated .mesh))
    ∧ (sampleBuilderAll.setFillTexturePaint ⟨false⟩ ⟨false, false⟩ none 1
        = .error (.stageRepeated .fill)
      ∧ sampleBuilderAll.setFillPaint paintW 1 = .error (.stageRepeated .fill)
      ∧ sampleBuilderAll.setFillPathTexturePaint ⟨false⟩ paintW 1
        = .error (.stageRepeated .fill)
      ∧ sampleBuilderAll.setFillShadowTexturePaint ⟨false⟩ 0 paintW 1
        = .error (.stageRepeated .fill)
      ∧ sampleBuilderAll.setFillBlack = .error (.stageRepeated .fill)
      ∧ sampleBuilderAll.setFillClear = .error (.stageRepeated .fill)
      ∧ sampleBuilderAll.setFillLayer ⟨false⟩ none 1 kSrcOver_Mode .noSwap
        = .error (.stageRepeated .fill)
      ∧ sampleBuilderAll.setFillTextureLayer layerW 1
        = .error (.stageRepeated .fill))
    ∧ (sampleBuilderAll.setTransform Matrix4.identity Matrix4.identity false
      = .error (.stageRepeated .transformStage))
    ∧ (sampleBuilderAll.setModelViewMapUnitToRect ⟨0, 0, 1, 1⟩
        = .error (.stageRepeated .modelView)
      ∧ sampleBuilderAll.setModelViewMapUnitToRectSnap ⟨0, 0, 1, 1⟩
        = .error (.stageRepeated .modelView)
      ∧ sampleBuilderAll.setModelViewOffsetRect 0 0 ⟨0, 0, 1, 1⟩
        = .error (.stageRepeated .modelView)
      ∧ sampleBuilderAll.setModelViewOffsetRectSnap 0 0 ⟨0, 0, 1, 1⟩
        = .error (.stageRepeated .modelView))
    ∧ (sampleBuilderAll.setRoundRectClipState none
      = .error (.stageRepeated .roundRectClip))
    ∧ (sampleBuilder.setFillTexturePaint ⟨false⟩ ⟨false, false⟩ none 1
        = .error .stageMissing
      ∧ sampleBuilder.setFillPaint paintW 1 = .error .stageMissing
      ∧ sampleBuilder.setFillPathTexturePaint ⟨false⟩ paintW 1
        = .error .stageMissing
      ∧ sampleBuilder.setFillShadowTexturePaint ⟨false⟩ 0 paintW 1
        = .error .stageMissing
      ∧ sampleBuilder.setFillBlack = .error .stageMissing
      ∧ sampleBuilder.setFillClear = .error .stageMissing
      ∧ sampleBuilder.setFillLayer ⟨false⟩ none 1 kSrcOver_Mode .noSwap
        = .error .stageMissing
      ∧ sampleBuilder.setFillTextureLayer layerW 1 = .error .stageMissing)
    ∧ (sampleBuilder.setModelViewMapUnitToRectSnap ⟨0, 0, 1, 1⟩
        = .error .stageMissing
      ∧ sampleBuilder.setModelViewOffsetRectSnap 0 0 ⟨0, 0, 1, 1⟩
        = .error .stageMissing)
    ∧ sampleBuilder.build = .error .stageMissing
    ∧ bNoMv.build = .error .stageMissing
    ∧ requireStages kAllStages sampleBuilderReady = .ok sampleBuilderReady := by
  obtain ⟨a1, a2, a3, a4, a5, -, -, -, -, -, -, -⟩ := stage_protocol
    sampleBuilderAll none ⟨0, 0, 1, 1⟩ ⟨0, 0, 1, 1⟩ ⟨0, 0, 1, 1⟩ 3 2 vbSample
    true patchSample ⟨false⟩ ⟨false, false⟩ none paintW 1 1 0 none
    kSrcOver_Mode .noSwap layerW Matrix4.identity Matrix4.identity false 0 0
    none
  obtain ⟨-, -, -, -, -, f6, f7, f8, -, -, -, -⟩ := stage_protocol
    sampleBuilder none ⟨0, 0, 1, 1⟩ ⟨0, 0, 1, 1⟩ ⟨0, 0, 1, 1⟩ 3 2 vbSample
    true patchSample ⟨false⟩ ⟨false, false⟩ none paintW 1 1 0 none
    kSrcOver_Mode .noSwap layerW Matrix4.identity Matrix4.identity false 0 0
    none
  obtain ⟨-, -, -, -, -, -, -, -, -, -, g11, -⟩ := stage_protocol bNoMv none
    ⟨0, 0, 1, 1⟩ ⟨0, 0, 1, 1⟩ ⟨0, 0, 1, 1⟩ 3 2 vbSample true patchSample
    ⟨false⟩ ⟨false, false⟩ none paintW 1 1 0 none kSrcOver_Mode .noSwap layerW
    Matrix4.identity Matrix4.identity false 0 0 none
  obtain ⟨-, -, -, -, -, -, -, -, -, -, -, i12⟩ := stage_protocol
    sampleBuilderReady none ⟨0, 0, 1, 1⟩ ⟨0, 0, 1, 1⟩ ⟨0, 0, 1, 1⟩ 3 2
    vbSample true patchSample ⟨false⟩ ⟨false, false⟩ none paintW 1 1 0 none
    kSrcOver_Mode .noSwap layerW Matrix4.identity Matrix4.identity false 0 0
    none
  exact ⟨a1 rfl, a2 rfl, a3 rfl, a4 rfl, a5 rfl, f6 rfl rfl,
    f7 rfl (Or.inl rfl), f8 rfl, g11 rfl, i12 rfl rfl rfl rfl⟩

theorem verify_texture_consistency_witness :
    (verify ProgramDescription.init
      { sampleGlop with mesh := { sampleMesh with
          vertices := { sampleMesh.vertices with
            attribFlags := .kTextureCoordOnly } } } = .error .verifyTexture)
    ∧ (verify { ProgramDescription.init with hasTexture := true }
      { sampleGlop with fill := { sampleFill with
          texture := ⟨some ⟨false⟩, GL_TEXTURE_2D, GL_LINEAR, GL_CLAMP_TO_EDGE,
            none⟩ } } = .error .verifyTexture)
    ∧ (verify { ProgramDescription.init with
          hasTexture := true, hasExternalTexture := true }
      { sampleGlop with
        mesh := { sampleMesh with vertices := { sampleMesh.vertices with
          attribFlags := .kTextureCoordOnly } }
        fill := { sampleFill with
          texture := ⟨some ⟨false⟩, GL_TEXTURE_2D, GL_LINEAR, GL_CLAMP_TO_EDGE,
            none⟩ } } = .error .verifyTexture) := by
  refine ⟨?_, ?_, ?_⟩
  · exact (verify_texture_consistency _ _).1 rfl rfl
  · exact (verify_texture_consistency _ _).2.1 rfl rfl
  · exact (verify_texture_consistency _ _).2.2 rfl rfl

end GlopSpec
